import Mathlib

/-!
# Runware SDK (Go): request validation and response listeners

A shallow embedding of `event_new_img.go`, `event_connection.go` and the parts of
`types.go` they use.

* Go `int` values are `Int` (only comparisons and the truncated remainder `%`
  are applied to them, so no wrap-around can occur).
* Go `float64` values are `Float64` below: NaN, the two infinities, or a finite
  value, with the IEEE ordered comparisons Go uses.
* Go `error` values are `GoError`: the arguments handed to `fmt.Errorf` are kept
  as they are, so the wrapped sentinel and every operand stay inspectable.
* Pointers are `Option`, slices are `List`.
-/

namespace Runware

/-! ## float64 -/

/-- A Go `float64`: NaN, minus or plus infinity, or a finite value. Finite
values are kept as rationals (every finite double is one). -/
inductive Float64 where
  | nan
  | negInf
  | posInf
  | fin (q : ℚ)
  deriving DecidableEq, Repr

namespace Float64

/-- Go `a < b` on `float64`: false as soon as one side is NaN. -/
def lt : Float64 → Float64 → Bool
  | nan, _ => false
  | _, nan => false
  | negInf, negInf => false
  | negInf, _ => true
  | _, negInf => false
  | posInf, _ => false
  | fin _, posInf => true
  | fin a, fin b => decide (a < b)

/-- Go `a > b` on `float64`. -/
def gt (a b : Float64) : Bool := lt b a

/-- Go `a == b` on `float64`: NaN equals nothing, itself included. -/
def eq : Float64 → Float64 → Bool
  | negInf, negInf => true
  | posInf, posInf => true
  | fin a, fin b => decide (a = b)
  | _, _ => false

/-- The value is not NaN. -/
def isNumber : Float64 → Bool
  | nan => false
  | _ => true

/-- An integer constant converted to `float64`. -/
def ofInt (n : Int) : Float64 := fin n

/-- The double nearest to the literal `0.8` (bits `0x3FE999999999999A`). -/
def lit_0_8 : Float64 := fin (mkRat 3602879701896397 4503599627370496)

/-- Membership in the closed interval `[lo, hi]`, as a mathematical statement:
NaN and the infinities belong to no interval of finite bounds. -/
def inRange (lo hi : ℚ) : Float64 → Prop
  | fin q => lo ≤ q ∧ q ≤ hi
  | _ => False

instance (lo hi : ℚ) (x : Float64) : Decidable (inRange lo hi x) := by
  cases x <;> unfold inRange <;> infer_instance

end Float64

/-! ## errors -/

/-- The package-level sentinel errors the two files wrap (declared in the
package's error file; only their identity matters here). -/
inductive Sentinel where
  | ErrFieldRequired
  | ErrFieldIncorrectVal
  | ErrInvalidApiKey
  | ErrWsUnknownError
  | ErrRequestTimeout
  | ErrDecodeMessage
  deriving DecidableEq, Repr

/-- An operand of `fmt.Errorf` after the wrapped error. -/
inductive FmtArg where
  | str (s : String)
  | float (f : Float64)
  deriving DecidableEq, Repr

/-- The two values `ctx.Err()` can have once `ctx.Done()` is closed. -/
inductive CtxErr where
  | Canceled
  | DeadlineExceeded
  deriving DecidableEq, Repr

/-- A Go `error` value. -/
inductive GoError where
  /-- `fmt.Errorf(format, wrapped, args...)` with `%w` as first verb. -/
  | errorf (format : String) (wrapped : Sentinel) (args : List FmtArg)
  /-- The value of `ctx.Err()`. -/
  | ctx (e : CtxErr)
  /-- An error made by a collaborator (transport, JSON codec), with its text. -/
  | external (text : String)
  deriving DecidableEq, Repr

/-- The sentinel an error wraps (`errors.Is` against the package sentinels). -/
def GoError.wraps : GoError → Option Sentinel
  | .errorf _ w _ => some w
  | _ => none

/-! ## types.go -/

structure ControlNet where
  Model : String := ""
  GuideImage : String := ""
  Weight : Float64 := .fin 0
  StartStep : Option Int := none
  StartStepPercentage : Option Int := none
  EndStep : Option Int := none
  EndStepPercentage : Option Int := none
  ControlMode : String := ""
  deriving DecidableEq, Repr

structure Lora where
  Model : String := ""
  Weight : Float64 := .fin 0
  deriving DecidableEq, Repr

structure Refiner where
  Model : String := ""
  StartStep : Option Int := none
  StartStepPercentage : Option Int := none
  deriving DecidableEq, Repr

structure Embedding where
  Model : String := ""
  Weight : Float64 := .fin 0
  deriving DecidableEq, Repr

structure IPAdapter where
  Model : String := ""
  GuideImage : String := ""
  Weight : Float64 := .fin 0
  deriving DecidableEq, Repr

structure Outpaint where
  Top : Int := 0
  Right : Int := 0
  Bottom : Int := 0
  Left : Int := 0
  Blur : Int := 0
  deriving DecidableEq, Repr

structure AdvancedFeatures where
  LayerDiffuse : Bool := false
  deriving DecidableEq, Repr

structure AcceleratorOptions where
  TeaCache : Bool := false
  TeaCacheDistance : Float64 := .fin 0
  DeepCache : Bool := false
  DeepCacheInterval : Int := 0
  DeepCacheBranchId : Int := 0
  deriving DecidableEq, Repr

structure PuLID where
  InputImages : List String := []
  IdWeight : Int := 0
  TrueCFGScale : Float64 := .fin 0
  CFGStartStep : Int := 0
  CFGStartStepPercentage : Int := 0
  deriving DecidableEq, Repr

structure ACEPlusPlus where
  Type_ : String := ""
  InputImages : List String := []
  InputMasks : List String := []
  RepaintingScale : Float64 := .fin 0
  deriving DecidableEq, Repr

structure BFLSettings where
  PromptUpsampling : Bool := false
  SafetyTolerance : Int := 0
  Raw : Bool := false
  deriving DecidableEq, Repr

structure ProviderSettings where
  BFL : Option BFLSettings := none
  deriving DecidableEq, Repr

/-- The task type constant `ImageInference`. -/
def ImageInference_taskType : String := "imageInference"
def OutputTypeURL : String := "URL"
def OutputFormatJPG : String := "JPG"
def DeliveryMethodSync : String := "sync"

/-! ## event_new_img.go: the request and its validation -/

/-- The struct `NewImageInferenceReq`; every field defaults to Go's zero value. -/
structure NewImageInferenceReq where
  TaskType : String := ""
  TaskUUID : String := ""
  DeliveryMethod : String := ""
  WebhookURL : String := ""
  UploadEndpoint : String := ""
  OutputType : String := ""
  OutputFormat : String := ""
  OutputQuality : Int := 0
  CheckNSFW : Bool := false
  IncludeCost : Bool := false
  PositivePrompt : String := ""
  NegativePrompt : String := ""
  Model : String := ""
  Width : Int := 0
  Height : Int := 0
  SeedImage : String := ""
  MaskImage : String := ""
  MaskMargin : Int := 0
  ReferenceImages : List String := []
  Strength : Float64 := .fin 0
  Steps : Int := 0
  Scheduler : String := ""
  Seed : Option Int := none
  CFGScale : Float64 := .fin 0
  ClipSkip : Option Int := none
  PromptWeighting : String := ""
  NumberResults : Int := 0
  VAE : String := ""
  Outpaint : Option Outpaint := none
  AdvancedFeatures : Option AdvancedFeatures := none
  AcceleratorOptions : Option AcceleratorOptions := none
  PuLID : Option PuLID := none
  ACEPlusPlus : Option ACEPlusPlus := none
  Refiner : Option Refiner := none
  Embeddings : List Embedding := []
  ControlNet : List ControlNet := []
  Lora : List Lora := []
  IPAdapters : List IPAdapter := []
  ProviderSettings : Option ProviderSettings := none
  deriving DecidableEq, Repr

/-- The function `NewImageInferenceReqDefaults`; `taskUUID` is the value of
`uuid.New().String()`. -/
def NewImageInferenceReqDefaults (taskUUID : String) : NewImageInferenceReq :=
  { TaskType := ImageInference_taskType
    TaskUUID := taskUUID
    DeliveryMethod := DeliveryMethodSync
    OutputType := OutputTypeURL
    OutputFormat := OutputFormatJPG
    OutputQuality := 95
    Steps := 20
    CFGScale := .ofInt 7
    NumberResults := 1
    Strength := .lit_0_8 }

/-- The outpaint block of `validateImageInferenceReq` (lines 253-266), entered
when `req.Outpaint != nil`. -/
def validateOutpaint (seedImage : String) (o : Outpaint) : Option GoError :=
  if seedImage = "" then
    some (.errorf "%w:[%s when outpaint is provided]" .ErrFieldRequired [.str "seedImage"])
  else if o.Top.tmod 64 ≠ 0 ∨ o.Right.tmod 64 ≠ 0 ∨ o.Bottom.tmod 64 ≠ 0 ∨ o.Left.tmod 64 ≠ 0 then
    some (.errorf "%w:[%s][all values must be divisible by 64]" .ErrFieldIncorrectVal [.str "outpaint"])
  else if o.Blur < 0 ∨ o.Blur > 32 then
    some (.errorf "%w:[%s][0-32]" .ErrFieldIncorrectVal [.str "outpaint.blur"])
  else none

/-- Lines 240-242 of `validateImageInferenceReq`: the function's own copy of the
request gets `Strength = 0.8` when a seed image comes with a zero strength. -/
def defaultStrengthForSeed (req : NewImageInferenceReq) : NewImageInferenceReq :=
  if req.SeedImage ≠ "" ∧ req.Strength.eq (.ofInt 0) then { req with Strength := .lit_0_8 } else req

/-- The function `validateImageInferenceReq`: `none` is Go's `nil` error. -/
def validateImageInferenceReq (req : NewImageInferenceReq) : Option GoError :=
  if req.PositivePrompt = "" then
    some (.errorf "%w:[%s]" .ErrFieldRequired [.str "positivePrompt"])
  else if req.Model = "" then
    some (.errorf "%w:[%s]" .ErrFieldRequired [.str "model"])
  else if req.Width < 128 ∨ req.Width > 2048 ∨ req.Width.tmod 64 ≠ 0 then
    some (.errorf "%w:[%s][128-2048, divisible by 64]" .ErrFieldIncorrectVal [.str "width"])
  else if req.Height < 128 ∨ req.Height > 2048 ∨ req.Height.tmod 64 ≠ 0 then
    some (.errorf "%w:[%s][128-2048, divisible by 64]" .ErrFieldIncorrectVal [.str "height"])
  else if req.Steps < 1 ∨ req.Steps > 100 then
    some (.errorf "%w:[%s][1-100]" .ErrFieldIncorrectVal [.str "steps"])
  else if req.CFGScale.lt (.ofInt 0) ∨ req.CFGScale.gt (.ofInt 50) then
    some (.errorf "%w:[%s][0-50]" .ErrFieldIncorrectVal [.str "CFGScale"])
  else if req.ClipSkip.any (fun c => c < 0 ∨ c > 2) then
    some (.errorf "%w:[%s][0-2]" .ErrFieldIncorrectVal [.str "clipSkip"])
  else if req.OutputQuality < 20 ∨ req.OutputQuality > 99 then
    some (.errorf "%w:[%s][20-99]" .ErrFieldIncorrectVal [.str "outputQuality"])
  else if req.NumberResults < 1 ∨ req.NumberResults > 20 then
    some (.errorf "%w:[%s][1-20]" .ErrFieldIncorrectVal [.str "numberResults"])
  else if req.Strength.lt (.ofInt 0) ∨ req.Strength.gt (.ofInt 1) then
    some (.errorf "%w:[%s][0-1]" .ErrFieldIncorrectVal [.str "strength"])
  else
    let req := defaultStrengthForSeed req
    if req.MaskImage ≠ "" ∧ req.SeedImage = "" then
      some (.errorf "%w:[%s when maskImage is provided]" .ErrFieldRequired [.str "seedImage"])
    else if req.MaskMargin ≠ 0 ∧ (req.MaskMargin < 32 ∨ req.MaskMargin > 128) then
      some (.errorf "%w:[%s][32-128]" .ErrFieldIncorrectVal [.str "maskMargin"])
    else
      match req.Outpaint with
      | some o => validateOutpaint req.SeedImage o
      | none => none

/-! ## The rule set of the specification -/

/-- An integer lies in `[lo, hi]`. -/
def intInRange (lo hi x : Int) : Prop := lo ≤ x ∧ x ≤ hi

instance (lo hi x : Int) : Decidable (intInRange lo hi x) := by
  unfold intInRange; infer_instance

/-- The outpaint rule of the specification: a base image, four margins divisible
by 64 and a blur in `[0,32]`. -/
def OutpaintRule (seedImage : String) (o : Outpaint) : Prop :=
  seedImage ≠ "" ∧ (64 ∣ o.Top ∧ 64 ∣ o.Right ∧ 64 ∣ o.Bottom ∧ 64 ∣ o.Left) ∧ intInRange 0 32 o.Blur

instance (s : String) (o : Outpaint) : Decidable (OutpaintRule s o) := by
  unfold OutpaintRule; infer_instance

/-- The rule set the specification gives for an image-generation request, in the
specification's words (section 4.6), one conjunct per rule. -/
def SpecRules (req : NewImageInferenceReq) : Prop :=
  req.PositivePrompt ≠ "" ∧
  req.Model ≠ "" ∧
  (intInRange 128 2048 req.Width ∧ 64 ∣ req.Width) ∧
  (intInRange 128 2048 req.Height ∧ 64 ∣ req.Height) ∧
  intInRange 1 100 req.Steps ∧
  req.CFGScale.inRange 0 50 ∧
  (∀ c ∈ req.ClipSkip, intInRange 0 2 c) ∧
  intInRange 20 99 req.OutputQuality ∧
  intInRange 1 20 req.NumberResults ∧
  req.Strength.inRange 0 1 ∧
  (req.MaskImage ≠ "" → req.SeedImage ≠ "") ∧
  (∀ o ∈ req.Outpaint, OutpaintRule req.SeedImage o)

instance (req : NewImageInferenceReq) : Decidable (SpecRules req) := by
  unfold SpecRules; infer_instance

/-- The mask-margin rule the code adds to the rule set: zero, or within `[32,128]`. -/
def MaskMarginRule (req : NewImageInferenceReq) : Prop :=
  req.MaskMargin = 0 ∨ intInRange 32 128 req.MaskMargin

instance (req : NewImageInferenceReq) : Decidable (MaskMarginRule req) := by
  unfold MaskMarginRule; infer_instance

/-- The request of the specification's example: width 512, height 512, 20 steps,
guidance 7, prompt "x", model "m", every other field as the defaults give it. -/
def exampleReq (taskUUID : String) : NewImageInferenceReq :=
  { NewImageInferenceReqDefaults taskUUID with
    Width := 512, Height := 512, Steps := 20, CFGScale := .ofInt 7,
    PositivePrompt := "x", Model := "m" }

/-! ## Default merging -/

/-- Go's zero value test, field type by field type: the "unset" sentinel of the
default merge. -/
class Unset (α : Type) where
  isUnset : α → Bool

instance : Unset String := ⟨fun s => s = ""⟩
instance : Unset Int := ⟨fun n => n = 0⟩
instance : Unset Bool := ⟨fun b => !b⟩
instance : Unset Float64 := ⟨fun f => f.eq (.ofInt 0)⟩
instance {α : Type} : Unset (Option α) := ⟨Option.isNone⟩
instance {α : Type} : Unset (List α) := ⟨List.isEmpty⟩

/-- One field of the merge: the default is taken only where the caller left the
field unset. -/
def overlay {α : Type} [Unset α] (given dflt : α) : α :=
  if Unset.isUnset given then dflt else given

/-- Modelled from the spec: `MergeEventRequestsWithDefaults`, the generic merge
helper of the package, is not part of the files embedded here. Section 4.5 (a):
"merge caller-supplied fields over type-specific defaults — only fields left at
the unset sentinel are overwritten, explicit caller values always win". This is
its instance at `*NewImageInferenceReq`. -/
def MergeEventRequestsWithDefaults_image (req dflt : NewImageInferenceReq) : NewImageInferenceReq :=
  { TaskType := overlay req.TaskType dflt.TaskType
    TaskUUID := overlay req.TaskUUID dflt.TaskUUID
    DeliveryMethod := overlay req.DeliveryMethod dflt.DeliveryMethod
    WebhookURL := overlay req.WebhookURL dflt.WebhookURL
    UploadEndpoint := overlay req.UploadEndpoint dflt.UploadEndpoint
    OutputType := overlay req.OutputType dflt.OutputType
    OutputFormat := overlay req.OutputFormat dflt.OutputFormat
    OutputQuality := overlay req.OutputQuality dflt.OutputQuality
    CheckNSFW := overlay req.CheckNSFW dflt.CheckNSFW
    IncludeCost := overlay req.IncludeCost dflt.IncludeCost
    PositivePrompt := overlay req.PositivePrompt dflt.PositivePrompt
    NegativePrompt := overlay req.NegativePrompt dflt.NegativePrompt
    Model := overlay req.Model dflt.Model
    Width := overlay req.Width dflt.Width
    Height := overlay req.Height dflt.Height
    SeedImage := overlay req.SeedImage dflt.SeedImage
    MaskImage := overlay req.MaskImage dflt.MaskImage
    MaskMargin := overlay req.MaskMargin dflt.MaskMargin
    ReferenceImages := overlay req.ReferenceImages dflt.ReferenceImages
    Strength := overlay req.Strength dflt.Strength
    Steps := overlay req.Steps dflt.Steps
    Scheduler := overlay req.Scheduler dflt.Scheduler
    Seed := overlay req.Seed dflt.Seed
    CFGScale := overlay req.CFGScale dflt.CFGScale
    ClipSkip := overlay req.ClipSkip dflt.ClipSkip
    PromptWeighting := overlay req.PromptWeighting dflt.PromptWeighting
    NumberResults := overlay req.NumberResults dflt.NumberResults
    VAE := overlay req.VAE dflt.VAE
    Outpaint := overlay req.Outpaint dflt.Outpaint
    AdvancedFeatures := overlay req.AdvancedFeatures dflt.AdvancedFeatures
    AcceleratorOptions := overlay req.AcceleratorOptions dflt.AcceleratorOptions
    PuLID := overlay req.PuLID dflt.PuLID
    ACEPlusPlus := overlay req.ACEPlusPlus dflt.ACEPlusPlus
    Refiner := overlay req.Refiner dflt.Refiner
    Embeddings := overlay req.Embeddings dflt.Embeddings
    ControlNet := overlay req.ControlNet dflt.ControlNet
    Lora := overlay req.Lora dflt.Lora
    IPAdapters := overlay req.IPAdapters dflt.IPAdapters
    ProviderSettings := overlay req.ProviderSettings dflt.ProviderSettings }

/-- The function `mergeImageInferenceReqWithDefaults`; `taskUUID` is the UUID the
defaults draw. The merge helper's error is dropped, as in the source. -/
def mergeImageInferenceReqWithDefaults (taskUUID : String) (req : NewImageInferenceReq) :
    NewImageInferenceReq :=
  MergeEventRequestsWithDefaults_image req (NewImageInferenceReqDefaults taskUUID)

/-! ## event_connection.go: request, response, validation -/

structure NewConnectReq where
  APIKey : String := ""
  ConnectionSessionUUID : String := ""
  TaskType : String := ""
  deriving DecidableEq, Repr

structure NewConnectResp where
  ConnectionSessionUUID : String := ""
  TimedOut : Bool := false
  deriving DecidableEq, Repr

/-- The function `NewConnectReqDefaults`. -/
def NewConnectReqDefaults : NewConnectReq := { TaskType := "ping" }

/-- Modelled from the spec: `MergeEventRequestsWithDefaults` at `*NewConnectReq`
(the helper is not part of the files embedded here; section 4.5 (a) as above). -/
def MergeEventRequestsWithDefaults_connect (req dflt : NewConnectReq) : NewConnectReq :=
  { APIKey := overlay req.APIKey dflt.APIKey
    ConnectionSessionUUID := overlay req.ConnectionSessionUUID dflt.ConnectionSessionUUID
    TaskType := overlay req.TaskType dflt.TaskType }

/-- The function `mergeNewConnectReqWithDefaults`. -/
def mergeNewConnectReqWithDefaults (req : NewConnectReq) : NewConnectReq :=
  MergeEventRequestsWithDefaults_connect req NewConnectReqDefaults

/-- The function `validateNewConnectReq`. -/
def validateNewConnectReq (req : NewConnectReq) : Option GoError :=
  if req.APIKey = "" then some (.errorf "%w:[%s]" .ErrFieldRequired [.str "apiKey"]) else none

/-- The struct `NewImageInferenceResp`. -/
structure NewImageInferenceResp where
  TaskType : String := ""
  TaskUUID : String := ""
  ImageUUID : String := ""
  ImageURL : String := ""
  ImageBase64Data : String := ""
  ImageDataURI : String := ""
  Seed : Int := 0
  NSFWContent : Bool := false
  Cost : Float64 := .fin 0
  TimedOut : Bool := false
  deriving DecidableEq, Repr

/-! ## Collaborators of the two operations -/

/-- A decoded JSON value, as `encoding/json` stores it in an `interface{}`. -/
inductive JsonValue where
  | null
  | bool (b : Bool)
  | number (f : Float64)
  | string (s : String)
  | array (items : List JsonValue)
  | object (fields : List (String × JsonValue))

/-- The value `map[string]interface{}` a message decodes to, listed in the order
the `range` loop visits its keys. -/
abbrev MsgData := List (String × JsonValue)

/-- What the accessors of a `gjson.Result` return. -/
structure GjsonResult where
  /-- The method `Exists()`. -/
  present : Bool
  /-- The method `Bool()`. -/
  asBool : Bool
  /-- The method `Float()`. -/
  asFloat : Float64
  /-- The method `String()`. -/
  asString : String

/-- The payload of a `Request`: what `Connect` and `ImageInference` put in `Data`. -/
inductive RequestData where
  | connect (req : NewConnectReq)
  | imageInference (reqs : List NewImageInferenceReq)
  deriving DecidableEq

/-- The struct `Request` the operations fill in before sending. -/
structure Request where
  ID : String
  Event : String
  ResponseEvent : String
  Data : RequestData
  deriving DecidableEq

/-- The transport `sdk.Client`. -/
structure Client where
  /-- The messages the channel returned by `Listen()` yields to the listener,
  in order; the end of the list is the closing of the channel. -/
  Listen : List String
  /-- The method `Send`: `none` is a `nil` error. -/
  Send : String → Option GoError

/-- Which case of the final `select` is taken. -/
inductive Wait where
  /-- One of the two channels of the listener (`responseChan`, `errChan`). -/
  | listener
  /-- The case `time.After(timeoutSendResponse * time.Second)`. -/
  | timeout
  /-- The case `ctx.Done()`, with the value of `ctx.Err()`. -/
  | ctxDone (e : CtxErr)
  deriving DecidableEq

/-- Everything the two operations take from outside the embedded files: the
SDK value, the package constants and helpers declared elsewhere, the library
functions, and the scheduling of the final `select`. -/
structure SDK where
  Client : Client
  /-- The method `sdk.OnError`: the error and the flag it returns. -/
  OnError : MsgData → Option GoError × Bool
  /-- The event-name constants. -/
  NewConnection : String
  NewConnectionSessionUUID : String
  NewTask : String
  NewImage : String
  /-- The value of `uuid.New().String()` in the request defaults. -/
  taskUUID : String
  /-- The value of `uuid.New().String()` for `sendReq.ID`. -/
  requestID : String
  /-- The method `Request.ToEvent`. -/
  ToEvent : Request → Except GoError String
  /-- The call `gjson.Get(json, path)`. -/
  gjsonGet : String → String → GjsonResult
  /-- The call `json.Unmarshal(msg, &msgData)`; a failure carries `err.Error()`. -/
  jsonUnmarshalMap : String → Except String MsgData
  /-- The helper `interfaceToByte`. -/
  interfaceToByte : JsonValue → Except GoError String
  /-- The call `json.Unmarshal(bValue, &newImageInferenceResp)`: from the bytes and
  the pointer before the call, the pointer after it (`none` is `nil`) and the
  error returned. -/
  jsonUnmarshalResp : String → Option NewImageInferenceResp →
    Option NewImageInferenceResp × Option GoError
  /-- The case the final `select` takes. -/
  wait : Wait

/-- A transport effect of an operation. -/
inductive Effect where
  /-- The listener goroutine is started on `sdk.Client.Listen()`. -/
  | listen
  /-- The call `sdk.Client.Send(frame)`. -/
  | send (frame : String)
  deriving DecidableEq, Repr

/-- What a listener goroutine records while it runs. -/
inductive Event where
  /-- A call of `log.Println` with these operands. -/
  | log (operands : List String)
  /-- An element handed to `interfaceToByte` to be decoded as the payload. -/
  | payload (v : JsonValue)

/-- How a listener goroutine stops. `R` is what travels on `responseChan`. -/
inductive Offer (R : Type) where
  /-- It sends on `responseChan`. -/
  | response (r : R)
  /-- It sends on `errChan` (`none` is a `nil` error). -/
  | error (e : Option GoError)
  /-- The inbound channel was closed: both channels get closed. -/
  | closed

/-- The run of a listener goroutine: the variable it shares with the caller,
how it stops, and what it recorded. -/
structure Listened (R : Type) where
  shared : R
  offer : Offer R
  events : List Event

/-- What an operation hands back to its caller. -/
inductive Returned (R : Type) where
  /-- The pair `(response, error)`; `none` is `nil`. -/
  | values (resp : Option R) (err : Option GoError)
  /-- The operation dereferences a `nil` response pointer and panics. -/
  | nilDereference

/-- An operation's result together with its transport effects, in order. -/
structure CallResult (R : Type) where
  result : Returned R
  effects : List Effect

/-! ## event_connection.go: Connect -/

/-- The error the listener of `Connect` makes from an error-flagged message
(lines 51-62). -/
def connectError (errorId : Float64) (errorMessage : String) : GoError :=
  let err : Sentinel :=
    if errorId.eq (.ofInt 19) then .ErrInvalidApiKey else .ErrWsUnknownError
  .errorf "%w:[%v:%s]" err [.float errorId, .str errorMessage]

/-- The log line of line 75. -/
def skipMessageLog (responseEvent : String) : Event :=
  .log ["Skipping message, waiting for", responseEvent]

/-- A message the listener of `Connect` skips: its error indicator is not set and
it does not carry the expected response key. -/
def Unroutable (sdk : SDK) (responseEvent msg : String) : Prop :=
  (sdk.gjsonGet msg "error").asBool = false ∧ (sdk.gjsonGet msg responseEvent).present = false

instance (sdk : SDK) (responseEvent msg : String) : Decidable (Unroutable sdk responseEvent msg) := by
  unfold Unroutable; infer_instance

/-- The listener goroutine of `Connect` (lines 42-77) on the inbound messages,
`newConnectResp` being the response value it shares with the caller. -/
def connectListener (sdk : SDK) (responseEvent : String) :
    List String → NewConnectResp → Listened NewConnectResp
  | [], newConnectResp => ⟨newConnectResp, .closed, []⟩
  | msg :: rest, newConnectResp =>
    if (sdk.gjsonGet msg "error").asBool then
      let errorId := (sdk.gjsonGet msg "errorId").asFloat
      let errorMessage := (sdk.gjsonGet msg "errorMessage").asString
      ⟨newConnectResp, .error (some (connectError errorId errorMessage)), []⟩
    else if (sdk.gjsonGet msg responseEvent).present then
      let sessionUUID := (sdk.gjsonGet msg responseEvent).asString
      let newConnectResp := { newConnectResp with ConnectionSessionUUID := sessionUUID }
      ⟨newConnectResp, .response newConnectResp, []⟩
    else
      let l := connectListener sdk responseEvent rest newConnectResp
      ⟨l.shared, l.offer, skipMessageLog responseEvent :: l.events⟩

/-- The error both operations pair with the timed-out response (lines 95 and 172). -/
def timeoutError (event : String) : GoError :=
  .errorf "%w:[%s]" .ErrRequestTimeout [.str event]

/-- The value `sendReq` of `Connect` (lines 30-35) for the merged request. -/
def connectSendReq (sdk : SDK) (req : NewConnectReq) : Request :=
  { ID := sdk.requestID, Event := sdk.NewConnection,
    ResponseEvent := sdk.NewConnectionSessionUUID, Data := .connect req }

/-- The method `SDK.Connect`. -/
def Connect (sdk : SDK) (req : NewConnectReq) : CallResult NewConnectResp :=
  let req := mergeNewConnectReqWithDefaults req
  match validateNewConnectReq req with
  | some err => ⟨.values none (some err), []⟩
  | none =>
    let sendReq := connectSendReq sdk req
    let l := connectListener sdk sendReq.ResponseEvent sdk.Client.Listen {}
    match sdk.ToEvent sendReq with
    | .error err => ⟨.values none (some err), [.listen]⟩
    | .ok bSendReq =>
      match sdk.Client.Send bSendReq with
      | some err => ⟨.values none (some err), [.listen, .send bSendReq]⟩
      | none =>
        let result : Returned NewConnectResp :=
          match sdk.wait with
          | .listener =>
            match l.offer with
            | .response resp => .values (some resp) none
            | .error err => .values none err
            | .closed => .values none none
          | .timeout =>
            .values (some { l.shared with TimedOut := true }) (some (timeoutError sendReq.Event))
          | .ctxDone e => .values none (some (.ctx e))
        ⟨result, [.listen, .send bSendReq]⟩

/-! ## event_new_img.go: ImageInference -/

/-- The result of the inner `range msgData` loop: what it recorded and, when the
goroutine returned from inside it, the shared pointer and the channel send. -/
structure Scan where
  events : List Event
  stop : Option (Option NewImageInferenceResp × Offer (Option NewImageInferenceResp))

/-- Lines 138-151: the element `vArray[0]` goes through `interfaceToByte` and
`json.Unmarshal(bValue, &newImageInferenceResp)`; the result is the shared
pointer afterwards and the channel send that ends the goroutine. -/
def decodePayload (sdk : SDK) (shared : Option NewImageInferenceResp) (first : JsonValue) :
    Option NewImageInferenceResp × Offer (Option NewImageInferenceResp) :=
  match sdk.interfaceToByte first with
  | .error err => (shared, .error (some err))
  | .ok bValue =>
    match sdk.jsonUnmarshalResp bValue shared with
    | (p, some err) => (p, .error (some err))
    | (p, none) => (p, .response p)

/-- The log line of line 128. -/
def skipEventLog (responseEvent k : String) : Event :=
  .log ["Skipping event", k, "Currently handling", responseEvent]

/-- The inner loop of the listener of `ImageInference` (lines 126-152) over the
entries of one message, `shared` being the pointer `newImageInferenceResp`. -/
def scanMsgData (sdk : SDK) (responseEvent : String) (shared : Option NewImageInferenceResp) :
    MsgData → Scan
  | [] => ⟨[], none⟩
  | (k, v) :: rest =>
    if k ≠ responseEvent then
      let s := scanMsgData sdk responseEvent shared rest
      ⟨skipEventLog responseEvent k :: s.events, s.stop⟩
    else
      match v with
      | .array (first :: _) => ⟨[.payload first], some (decodePayload sdk shared first)⟩
      | _ => scanMsgData sdk responseEvent shared rest

/-- The listener goroutine of `ImageInference` (lines 109-154). -/
def imageInferenceListener (sdk : SDK) (responseEvent : String) :
    List String → Option NewImageInferenceResp → Listened (Option NewImageInferenceResp)
  | [], shared => ⟨shared, .closed, []⟩
  | msg :: rest, shared =>
    match sdk.jsonUnmarshalMap msg with
    | .error text =>
      ⟨shared, .error (some (.errorf "%w:[%s]" .ErrDecodeMessage [.str text])), []⟩
    | .ok msgData =>
      match sdk.OnError msgData with
      | (errMsg, true) => ⟨shared, .error errMsg, []⟩
      | (_, false) =>
        let s := scanMsgData sdk responseEvent shared msgData
        match s.stop with
        | some (p, offer) => ⟨p, offer, s.events⟩
        | none =>
          let l := imageInferenceListener sdk responseEvent rest shared
          ⟨l.shared, l.offer, s.events ++ l.events⟩

/-- The value `sendReq` of `ImageInference` (lines 97-102) for the merged request. -/
def imageInferenceSendReq (sdk : SDK) (req : NewImageInferenceReq) : Request :=
  { ID := sdk.requestID, Event := sdk.NewTask, ResponseEvent := sdk.NewImage,
    Data := .imageInference [req] }

/-- The method `SDK.ImageInference`. -/
def ImageInference (sdk : SDK) (req : NewImageInferenceReq) : CallResult NewImageInferenceResp :=
  let req := mergeImageInferenceReqWithDefaults sdk.taskUUID req
  match validateImageInferenceReq req with
  | some err => ⟨.values none (some err), []⟩
  | none =>
    let sendReq := imageInferenceSendReq sdk req
    let l := imageInferenceListener sdk sendReq.ResponseEvent sdk.Client.Listen (some {})
    match sdk.ToEvent sendReq with
    | .error err => ⟨.values none (some err), [.listen]⟩
    | .ok bSendReq =>
      match sdk.Client.Send bSendReq with
      | some err => ⟨.values none (some err), [.listen, .send bSendReq]⟩
      | none =>
        let result : Returned NewImageInferenceResp :=
          match sdk.wait with
          | .listener =>
            match l.offer with
            | .response resp => .values resp none
            | .error err => .values none err
            | .closed => .values none none
          | .timeout =>
            match l.shared with
            | some resp =>
              .values (some { resp with TimedOut := true }) (some (timeoutError sendReq.Event))
            | none => .nilDereference
          | .ctxDone e => .values none (some (.ctx e))
        ⟨result, [.listen, .send bSendReq]⟩

/-! ## Sample collaborators

Concrete collaborators on which the operations can be evaluated: three inbound
frames for `Connect`, three for `ImageInference`, and codecs that behave on them
as `gjson` and `encoding/json` do. -/

/-- An error frame with code 19 that also carries the session key. -/
def frameError19 : String :=
  "\x7b\"error\":true,\"errorId\":19,\"errorMessage\":\"Invalid api key\",\"newConnectionSessionUUID\":\"s-1\"\x7d"

/-- An error frame with code 7. -/
def frameError7 : String :=
  "\x7b\"error\":true,\"errorId\":7,\"errorMessage\":\"Busy\"\x7d"

/-- A frame that answers `Connect`. -/
def frameSession : String := "\x7b\"newConnectionSessionUUID\":\"s-2\"\x7d"

/-- A frame for nobody. -/
def framePong : String := "\x7b\"pong\":true\x7d"

/-- A frame with two images. -/
def frameTwoImages : String :=
  "\x7b\"newImages\":[\x7b\"imageUUID\":\"a\"\x7d,\x7b\"imageUUID\":\"b\"\x7d]\x7d"

/-- A frame with a task type ahead of two images. -/
def frameTaggedImages : String :=
  "\x7b\"taskType\":\"imageInference\",\"newImages\":[\x7b\"imageUUID\":\"a\"\x7d,\x7b\"imageUUID\":\"b\"\x7d]\x7d"

/-- A frame with the first of the two images only. -/
def frameOneImage : String := "\x7b\"newImages\":[\x7b\"imageUUID\":\"a\"\x7d]\x7d"

/-- A frame whose image carries the field `timedOut`. -/
def frameTimedOutImage : String := "\x7b\"newImages\":[\x7b\"timedOut\":true\x7d]\x7d"

/-- The result of `gjson.Get` for a path the document does not have. -/
def gjsonAbsent : GjsonResult := ⟨false, false, .fin 0, ""⟩

/-- The function `gjson.Get` on the sample frames. -/
def sampleGjsonGet (json path : String) : GjsonResult :=
  if json = frameError19 then
    if path = "error" then ⟨true, true, .fin 1, "true"⟩
    else if path = "errorId" then ⟨true, true, .fin 19, "19"⟩
    else if path = "errorMessage" then ⟨true, false, .fin 0, "Invalid api key"⟩
    else if path = "newConnectionSessionUUID" then ⟨true, false, .fin 0, "s-1"⟩
    else gjsonAbsent
  else if json = frameError7 then
    if path = "error" then ⟨true, true, .fin 1, "true"⟩
    else if path = "errorId" then ⟨true, true, .fin 7, "7"⟩
    else if path = "errorMessage" then ⟨true, false, .fin 0, "Busy"⟩
    else gjsonAbsent
  else if json = frameSession then
    if path = "newConnectionSessionUUID" then ⟨true, false, .fin 0, "s-2"⟩ else gjsonAbsent
  else if json = framePong then
    if path = "pong" then ⟨true, true, .fin 1, "true"⟩ else gjsonAbsent
  else gjsonAbsent

/-- The decoding of a frame into `map[string]interface{}` on the sample frames. -/
def sampleUnmarshalMap (msg : String) : Except String MsgData :=
  if msg = frameTwoImages then
    .ok [("newImages", .array [.object [("imageUUID", .string "a")],
                                .object [("imageUUID", .string "b")]])]
  else if msg = frameTaggedImages then
    .ok [("taskType", .string "imageInference"),
         ("newImages", .array [.object [("imageUUID", .string "a")],
                                .object [("imageUUID", .string "b")]])]
  else if msg = frameOneImage then
    .ok [("newImages", .array [.object [("imageUUID", .string "a")]])]
  else if msg = frameTimedOutImage then
    .ok [("newImages", .array [.object [("timedOut", .bool true)]])]
  else if msg = framePong then
    .ok [("pong", .bool true)]
  else .error "invalid character"

/-- The helper `interfaceToByte` on the elements of the sample frames. -/
def sampleInterfaceToByte : JsonValue → Except GoError String
  | .object [("imageUUID", .string "a")] => .ok "\x7b\"imageUUID\":\"a\"\x7d"
  | .object [("imageUUID", .string "b")] => .ok "\x7b\"imageUUID\":\"b\"\x7d"
  | .object [("timedOut", .bool true)] => .ok "\x7b\"timedOut\":true\x7d"
  | .null => .ok "null"
  | _ => .error (.external "unsupported value")

/-- The decoding into `&newImageInferenceResp` on those bytes: a field of the JSON
object is stored in the struct field tagged with its name, and `null` resets the
pointer. -/
def sampleUnmarshalResp (bValue : String) (p : Option NewImageInferenceResp) :
    Option NewImageInferenceResp × Option GoError :=
  if bValue = "\x7b\"imageUUID\":\"a\"\x7d" then
    (some { p.getD {} with ImageUUID := "a" }, none)
  else if bValue = "\x7b\"imageUUID\":\"b\"\x7d" then
    (some { p.getD {} with ImageUUID := "b" }, none)
  else if bValue = "\x7b\"timedOut\":true\x7d" then
    (some { p.getD {} with TimedOut := true }, none)
  else if bValue = "null" then (none, none)
  else (p, some (.external "invalid character"))

/-- A sample SDK: the transport delivers `inbound` and accepts every frame, the
final `select` takes the case `wait`. -/
def sampleSDK (inbound : List String) (wait : Wait) : SDK :=
  { Client := { Listen := inbound, Send := fun _ => none }
    OnError := fun _ => (none, false)
    NewConnection := "newConnection"
    NewConnectionSessionUUID := "newConnectionSessionUUID"
    NewTask := "newTask"
    NewImage := "newImages"
    taskUUID := "task-1"
    requestID := "request-1"
    ToEvent := fun r => .ok r.ID
    gjsonGet := sampleGjsonGet
    jsonUnmarshalMap := sampleUnmarshalMap
    interfaceToByte := sampleInterfaceToByte
    jsonUnmarshalResp := sampleUnmarshalResp
    wait := wait }

/-! ## The fixed order of the validation rules -/

/-- One validation rule: when a request violates it, and the error reported. -/
structure Rule where
  violated : NewImageInferenceReq → Bool
  error : GoError

/-- The rules in the order the validator is said to check them, each violation
read off the rule itself: positivePrompt, model, width, height, steps, CFGScale,
clipSkip, outputQuality, numberResults, strength, maskImage needs seedImage,
maskMargin, outpaint needs seedImage, outpaint margins, outpaint blur. -/
def rulesInOrder : List Rule :=
  [ ⟨fun r => decide (r.PositivePrompt = ""),
      .errorf "%w:[%s]" .ErrFieldRequired [.str "positivePrompt"]⟩,
    ⟨fun r => decide (r.Model = ""),
      .errorf "%w:[%s]" .ErrFieldRequired [.str "model"]⟩,
    ⟨fun r => !decide (intInRange 128 2048 r.Width ∧ 64 ∣ r.Width),
      .errorf "%w:[%s][128-2048, divisible by 64]" .ErrFieldIncorrectVal [.str "width"]⟩,
    ⟨fun r => !decide (intInRange 128 2048 r.Height ∧ 64 ∣ r.Height),
      .errorf "%w:[%s][128-2048, divisible by 64]" .ErrFieldIncorrectVal [.str "height"]⟩,
    ⟨fun r => !decide (intInRange 1 100 r.Steps),
      .errorf "%w:[%s][1-100]" .ErrFieldIncorrectVal [.str "steps"]⟩,
    ⟨fun r => !decide (r.CFGScale.inRange 0 50),
      .errorf "%w:[%s][0-50]" .ErrFieldIncorrectVal [.str "CFGScale"]⟩,
    ⟨fun r => !decide (∀ c ∈ r.ClipSkip, intInRange 0 2 c),
      .errorf "%w:[%s][0-2]" .ErrFieldIncorrectVal [.str "clipSkip"]⟩,
    ⟨fun r => !decide (intInRange 20 99 r.OutputQuality),
      .errorf "%w:[%s][20-99]" .ErrFieldIncorrectVal [.str "outputQuality"]⟩,
    ⟨fun r => !decide (intInRange 1 20 r.NumberResults),
      .errorf "%w:[%s][1-20]" .ErrFieldIncorrectVal [.str "numberResults"]⟩,
    ⟨fun r => !decide (r.Strength.inRange 0 1),
      .errorf "%w:[%s][0-1]" .ErrFieldIncorrectVal [.str "strength"]⟩,
    ⟨fun r => decide (r.MaskImage ≠ "" ∧ r.SeedImage = ""),
      .errorf "%w:[%s when maskImage is provided]" .ErrFieldRequired [.str "seedImage"]⟩,
    ⟨fun r => !decide (MaskMarginRule r),
      .errorf "%w:[%s][32-128]" .ErrFieldIncorrectVal [.str "maskMargin"]⟩,
    ⟨fun r => decide (r.Outpaint.isSome ∧ r.SeedImage = ""),
      .errorf "%w:[%s when outpaint is provided]" .ErrFieldRequired [.str "seedImage"]⟩,
    ⟨fun r => !decide (∀ o ∈ r.Outpaint, 64 ∣ o.Top ∧ 64 ∣ o.Right ∧ 64 ∣ o.Bottom ∧ 64 ∣ o.Left),
      .errorf "%w:[%s][all values must be divisible by 64]" .ErrFieldIncorrectVal [.str "outpaint"]⟩,
    ⟨fun r => !decide (∀ o ∈ r.Outpaint, intInRange 0 32 o.Blur),
      .errorf "%w:[%s][0-32]" .ErrFieldIncorrectVal [.str "outpaint.blur"]⟩ ]

/-- The error of the first rule of `rulesInOrder` a request violates, if any. -/
def firstViolation (req : NewImageInferenceReq) : Option GoError :=
  (rulesInOrder.find? (fun rule => rule.violated req)).map (fun rule => rule.error)

/-! ## The mask-margin check -/

/-- The request gets past every check of `validateImageInferenceReq` that comes
before the mask-margin check (lines 199-246): none of their conditions holds. -/
def PassesChecksBeforeMaskMargin (req : NewImageInferenceReq) : Prop :=
  ¬ req.PositivePrompt = "" ∧
  ¬ req.Model = "" ∧
  ¬ (req.Width < 128 ∨ req.Width > 2048 ∨ req.Width.tmod 64 ≠ 0) ∧
  ¬ (req.Height < 128 ∨ req.Height > 2048 ∨ req.Height.tmod 64 ≠ 0) ∧
  ¬ (req.Steps < 1 ∨ req.Steps > 100) ∧
  ¬ (req.CFGScale.lt (.ofInt 0) = true ∨ req.CFGScale.gt (.ofInt 50) = true) ∧
  ¬ (req.ClipSkip.any (fun c => c < 0 ∨ c > 2) = true) ∧
  ¬ (req.OutputQuality < 20 ∨ req.OutputQuality > 99) ∧
  ¬ (req.NumberResults < 1 ∨ req.NumberResults > 20) ∧
  ¬ (req.Strength.lt (.ofInt 0) = true ∨ req.Strength.gt (.ofInt 1) = true) ∧
  ¬ (req.MaskImage ≠ "" ∧ req.SeedImage = "")

instance (req : NewImageInferenceReq) : Decidable (PassesChecksBeforeMaskMargin req) := by
  unfold PassesChecksBeforeMaskMargin; infer_instance

/-- The error of the mask-margin check (line 249). -/
def maskMarginError : GoError :=
  .errorf "%w:[%s][32-128]" .ErrFieldIncorrectVal [.str "maskMargin"]

/-! ## Several listeners on one inbound stream -/

/-- What a waiting listener of `Connect` does with one message it reads: `none`
when it skips the message and waits on, otherwise the send that ends it. -/
def connectStep (sdk : SDK) (responseEvent msg : String) : Option (Offer NewConnectResp) :=
  match (connectListener sdk responseEvent [msg] {}).offer with
  | .closed => none
  | offer => some offer

/-- What a waiting listener of `ImageInference` does with one message it reads. -/
def imageInferenceStep (sdk : SDK) (responseEvent msg : String) :
    Option (Offer (Option NewImageInferenceResp)) :=
  match (imageInferenceListener sdk responseEvent [msg] (some {})).offer with
  | .closed => none
  | offer => some offer

/-- The listeners of the calls in flight, oldest registration first: `none` for a
listener still waiting, otherwise the send it stopped with. -/
abbrev Waiters (R : Type) := List (Option (Offer R))

/-- Modelled from the spec: the channel behind `sdk.Client.Listen()` belongs to the
transport, which is not among the files embedded here. By section 9 the per-call
readers consume one shared inbound stream, so a message is read by one listener.
Here the listener at position `reader` reads `msg`: if it is still waiting it
handles the message with `step`; a listener that has stopped reads nothing. -/
def deliver {R : Type} (step : String → Option (Offer R)) :
    Nat → String → Waiters R → Waiters R
  | _, _, [] => []
  | 0, msg, none :: ws => step msg :: ws
  | 0, _, some offer :: ws => some offer :: ws
  | reader + 1, msg, w :: ws => w :: deliver step reader msg ws

/-- The listeners after the messages of a schedule, each message paired with the
position of the listener that reads it. -/
def runSchedule {R : Type} (step : String → Option (Offer R)) :
    List (Nat × String) → Waiters R → Waiters R
  | [], ws => ws
  | (reader, msg) :: rest, ws => runSchedule step rest (deliver step reader msg ws)

/-- The messages a schedule gives to the listener at position `reader`, in the
order it reads them. -/
def readBy (reader : Nat) : List (Nat × String) → List String
  | [] => []
  | (r, msg) :: rest => if r = reader then msg :: readBy reader rest else readBy reader rest

/-- A listener's state once the messages it was given are used up: still waiting
(`none`) when it reached the end of them without a send, otherwise the send it
stopped with. -/
def stoppedWith {R : Type} : Offer R → Option (Offer R)
  | .closed => none
  | offer => some offer

/-- A message the listener of `ImageInference` skips because it is for another key:
it decodes to a map, `OnError` does not flag it, and no entry of the map has the
expected response key. -/
def ImageUnroutable (sdk : SDK) (responseEvent msg : String) : Prop :=
  match sdk.jsonUnmarshalMap msg with
  | .ok msgData => (sdk.OnError msgData).2 = false ∧ ∀ kv ∈ msgData, kv.1 ≠ responseEvent
  | .error _ => False

instance (sdk : SDK) (responseEvent msg : String) :
    Decidable (ImageUnroutable sdk responseEvent msg) := by
  unfold ImageUnroutable; split <;> infer_instance

/-! # Theorems -/

/-! ## Lemmas on the comparisons -/

theorem Float64.out_of_range_iff (lo hi : Int) (x : Float64) (hx : x.isNumber = true) :
    (x.lt (.ofInt lo) = true ∨ x.gt (.ofInt hi) = true) ↔ ¬ x.inRange lo hi := by
  cases x with
  | nan => simp [Float64.isNumber] at hx
  | negInf => simp [Float64.lt, Float64.gt, Float64.ofInt, Float64.inRange]
  | posInf => simp [Float64.lt, Float64.gt, Float64.ofInt, Float64.inRange]
  | fin q =>
    simp only [Float64.lt, Float64.gt, Float64.ofInt, Float64.inRange, decide_eq_true_eq]
    constructor
    · rintro (h | h) ⟨h1, h2⟩
      · exact absurd h1 (not_le.mpr h)
      · exact absurd h2 (not_le.mpr h)
    · intro h
      by_cases h1 : (lo : ℚ) ≤ q
      · right
        exact not_le.mp (fun h2 => h ⟨h1, h2⟩)
      · left
        exact not_le.mp h1

theorem Float64.isNumber_of_inRange (lo hi : ℚ) (x : Float64) (h : x.inRange lo hi) :
    x.isNumber = true := by
  cases x <;> simp_all [Float64.inRange, Float64.isNumber]

theorem int_out_of_range_iff (lo hi x : Int) : (x < lo ∨ x > hi) ↔ ¬ intInRange lo hi x := by
  unfold intInRange
  omega

theorem tmod_ne_zero_iff (x : Int) : x.tmod 64 ≠ 0 ↔ ¬ (64 ∣ x) := by
  rw [Int.dvd_iff_tmod_eq_zero]

theorem dim_bad_iff (x : Int) :
    (x < 128 ∨ x > 2048 ∨ x.tmod 64 ≠ 0) ↔ ¬ (intInRange 128 2048 x ∧ 64 ∣ x) := by
  rw [tmod_ne_zero_iff, ← or_assoc, int_out_of_range_iff]
  tauto

theorem clipSkip_bad_iff (o : Option Int) :
    (o.any (fun c => decide (c < 0 ∨ c > 2)) = true) ↔ ¬ (∀ c ∈ o, intInRange 0 2 c) := by
  cases o with
  | none => simp
  | some c => simp [int_out_of_range_iff]

theorem defaultStrengthForSeed_fields (req : NewImageInferenceReq) :
    (defaultStrengthForSeed req).MaskImage = req.MaskImage ∧
    (defaultStrengthForSeed req).SeedImage = req.SeedImage ∧
    (defaultStrengthForSeed req).MaskMargin = req.MaskMargin ∧
    (defaultStrengthForSeed req).Outpaint = req.Outpaint := by
  unfold defaultStrengthForSeed
  split <;> simp

theorem cfg_bad_iff (x : Float64) (hx : x.isNumber = true) :
    (x.lt (.ofInt 0) = true ∨ x.gt (.ofInt 50) = true) ↔ ¬ x.inRange 0 50 := by
  simpa using Float64.out_of_range_iff 0 50 x hx

theorem strength_bad_iff (x : Float64) (hx : x.isNumber = true) :
    (x.lt (.ofInt 0) = true ∨ x.gt (.ofInt 1) = true) ↔ ¬ x.inRange 0 1 := by
  simpa using Float64.out_of_range_iff 0 1 x hx

theorem maskMargin_bad_iff (req : NewImageInferenceReq) :
    (req.MaskMargin ≠ 0 ∧ (req.MaskMargin < 32 ∨ req.MaskMargin > 128)) ↔ ¬ MaskMarginRule req := by
  unfold MaskMarginRule intInRange
  omega

theorem clipSkip_any_iff (o : Option Int) :
    (o.any (fun c => !decide (intInRange 0 2 c)) = true) ↔ ¬ (∀ c, o = some c → intInRange 0 2 c) := by
  cases o with
  | none => simp
  | some c => simp

set_option maxHeartbeats 4000000 in
theorem validate_eq_firstViolation (req : NewImageInferenceReq)
    (hc : req.CFGScale.isNumber = true) (hs : req.Strength.isNumber = true) :
    validateImageInferenceReq req = firstViolation req := by
  obtain ⟨e1, e2, e3, e4⟩ := defaultStrengthForSeed_fields req
  unfold validateImageInferenceReq firstViolation rulesInOrder
  simp only [clipSkip_bad_iff, Option.mem_def]
  simp only [e1, e2, e3, e4, dim_bad_iff, int_out_of_range_iff, cfg_bad_iff _ hc,
    strength_bad_iff _ hs, clipSkip_any_iff, maskMargin_bad_iff]
  by_cases h1 : req.PositivePrompt = ""
  · simp [h1]
  by_cases h2 : req.Model = ""
  · simp [h1, h2]
  by_cases h3 : intInRange 128 2048 req.Width
  swap
  · simp [h1, h2, h3]
  by_cases h3b : 64 ∣ req.Width
  swap
  · simp [h1, h2, h3, h3b]
  by_cases h4 : intInRange 128 2048 req.Height
  swap
  · simp [h1, h2, h3, h3b, h4]
  by_cases h4b : 64 ∣ req.Height
  swap
  · simp [h1, h2, h3, h3b, h4, h4b]
  by_cases h5 : intInRange 1 100 req.Steps
  swap
  · simp [h1, h2, h3, h3b, h4, h4b, h5]
  by_cases h6 : req.CFGScale.inRange 0 50
  swap
  · simp [h1, h2, h3, h3b, h4, h4b, h5, h6]
  by_cases h7 : ∀ c, req.ClipSkip = some c → intInRange 0 2 c
  swap
  · have h7a : (∀ c, req.ClipSkip = some c → intInRange 0 2 c) ↔ False := iff_false_intro h7
    have h7b : (∃ x, req.ClipSkip = some x ∧ ¬intInRange 0 2 x) ↔ True :=
      iff_true_intro (by push_neg at h7; exact h7)
    simp [h1, h2, h3, h3b, h4, h4b, h5, h6, h7a, h7b]
  have h7a : (∀ c, req.ClipSkip = some c → intInRange 0 2 c) ↔ True := iff_true_intro h7
  have h7b : (∃ x, req.ClipSkip = some x ∧ ¬intInRange 0 2 x) ↔ False :=
    iff_false_intro (by push_neg; exact h7)
  by_cases h8 : intInRange 20 99 req.OutputQuality
  swap
  · simp [h1, h2, h3, h3b, h4, h4b, h5, h6, h7a, h7b, h8]
  by_cases h9 : intInRange 1 20 req.NumberResults
  swap
  · simp [h1, h2, h3, h3b, h4, h4b, h5, h6, h7a, h7b, h8, h9]
  by_cases h10 : req.Strength.inRange 0 1
  swap
  · simp [h1, h2, h3, h3b, h4, h4b, h5, h6, h7a, h7b, h8, h9, h10]
  by_cases h11 : ¬req.MaskImage = "" ∧ req.SeedImage = ""
  · simp [h1, h2, h3, h3b, h4, h4b, h5, h6, h7a, h7b, h8, h9, h10, h11]
  simp only [not_and_or, not_not] at h11
  by_cases h12m : ¬req.MaskMargin = 0 ∧ ¬intInRange 32 128 req.MaskMargin
  · have h12 : ¬MaskMarginRule req := by unfold MaskMarginRule; tauto
    rcases h11 with h11 | h11 <;>
      simp [h1, h2, h3, h3b, h4, h4b, h5, h6, h7a, h7b, h8, h9, h10, h11, h12, h12m.1, h12m.2]
  have h12 : MaskMarginRule req := by unfold MaskMarginRule; tauto
  have h12a : (¬req.MaskMargin = 0 → intInRange 32 128 req.MaskMargin) ↔ True := by
    simp only [iff_true]; tauto
  cases hO : req.Outpaint with
  | none =>
    rcases h11 with h11 | h11 <;>
      simp [h1, h2, h3, h3b, h4, h4b, h5, h6, h7a, h7b, h8, h9, h10, h11, h12, h12a, hO]
  | some o =>
    unfold validateOutpaint
    simp only [tmod_ne_zero_iff, int_out_of_range_iff]
    by_cases h13 : req.SeedImage = ""
    · rcases h11 with h11 | h11
      · simp [h1, h2, h3, h3b, h4, h4b, h5, h6, h7a, h7b, h8, h9, h10, h11, h12, h12a, hO, h13]
      · exact absurd h13 h11
    by_cases h14 : 64 ∣ o.Top ∧ 64 ∣ o.Right ∧ 64 ∣ o.Bottom ∧ 64 ∣ o.Left
    swap
    · have h14' : ¬64 ∣ o.Top ∨ ¬64 ∣ o.Right ∨ ¬64 ∣ o.Bottom ∨ ¬64 ∣ o.Left := by tauto
      have h14a : (64 ∣ o.Top → 64 ∣ o.Right → 64 ∣ o.Bottom → ¬64 ∣ o.Left) ↔ True := by
        simp only [iff_true]; tauto
      simp [h1, h2, h3, h3b, h4, h4b, h5, h6, h7a, h7b, h8, h9, h10, h12, h12a, hO, h13, h14', h14a]
    obtain ⟨t1, t2, t3, t4⟩ := h14
    by_cases h15 : intInRange 0 32 o.Blur
    · simp [h1, h2, h3, h3b, h4, h4b, h5, h6, h7a, h7b, h8, h9, h10, h12, h12a, hO, h13, t1, t2, t3, t4, h15]
    · simp [h1, h2, h3, h3b, h4, h4b, h5, h6, h7a, h7b, h8, h9, h10, h12, h12a, hO, h13, t1, t2, t3, t4, h15]

theorem firstViolation_eq_none_iff (req : NewImageInferenceReq) :
    firstViolation req = none ↔ SpecRules req ∧ MaskMarginRule req := by
  unfold firstViolation SpecRules OutpaintRule
  simp only [Option.map_eq_none', List.find?_eq_none, rulesInOrder, List.mem_cons,
    List.mem_singleton, List.not_mem_nil, or_false, forall_eq_or_imp, forall_eq]
  simp only [Bool.not_eq_true, Bool.not_eq_false', decide_eq_false_iff_not, decide_eq_true_eq,
    Bool.not_not]
  cases hO : req.Outpaint with
  | none => simp; tauto
  | some o => simp; tauto

/-- C1. If `validateImageInferenceReq` returns no error for a request whose CFGScale
and Strength are not NaN, every rule of the specification's rule set holds. -/
theorem validate_ok_implies_rules (req : NewImageInferenceReq)
    (hc : req.CFGScale.isNumber = true) (hs : req.Strength.isNumber = true)
    (h : validateImageInferenceReq req = none) : SpecRules req := by
  rw [validate_eq_firstViolation req hc hs, firstViolation_eq_none_iff] at h
  exact h.1

theorem validate_ok_implies_rules_witness :
    validateImageInferenceReq (exampleReq "u") = none ∧ SpecRules (exampleReq "u") :=
  ⟨by decide, validate_ok_implies_rules (exampleReq "u") (by decide) (by decide) (by decide)⟩

/-- C2 (as stated, refuted). A request that satisfies every rule of the
specification's rule set, with `maskMargin = 5`, is rejected by
`validateImageInferenceReq`. -/
theorem validate_rejects_rule_abiding_request :
    SpecRules { exampleReq "u" with MaskMargin := 5 } ∧
    validateImageInferenceReq { exampleReq "u" with MaskMargin := 5 } =
      some (.errorf "%w:[%s][32-128]" .ErrFieldIncorrectVal [.str "maskMargin"]) := by
  decide

/-- C2 (amended). A request that satisfies every rule of the specification's rule
set and whose maskMargin is 0 or within [32,128] gets no error from
`validateImageInferenceReq`; in particular the request with width 512, height 512,
20 steps, CFGScale 7, prompt "x", model "m" and the defaults elsewhere is accepted,
whatever task UUID the defaults draw. -/
theorem validate_accepts_rule_abiding_request (req : NewImageInferenceReq)
    (h : SpecRules req) (hm : MaskMarginRule req) :
    validateImageInferenceReq req = none ∧
    ∀ taskUUID, validateImageInferenceReq (exampleReq taskUUID) = none := by
  have key : ∀ r : NewImageInferenceReq, SpecRules r → MaskMarginRule r →
      validateImageInferenceReq r = none := by
    intro r hr hmr
    have hc : r.CFGScale.isNumber = true := Float64.isNumber_of_inRange 0 50 _ hr.2.2.2.2.2.1
    have hs : r.Strength.isNumber = true :=
      Float64.isNumber_of_inRange 0 1 _ hr.2.2.2.2.2.2.2.2.2.1
    rw [validate_eq_firstViolation r hc hs, firstViolation_eq_none_iff]
    exact ⟨hr, hmr⟩
  refine ⟨key req h hm, fun taskUUID => key _ ?_ ?_⟩
  · unfold SpecRules exampleReq NewImageInferenceReqDefaults
    simp [intInRange, Float64.inRange, Float64.ofInt, Float64.lit_0_8]
    exact ⟨by decide, by norm_num, by decide⟩
  · unfold MaskMarginRule exampleReq NewImageInferenceReqDefaults
    simp

theorem validate_accepts_rule_abiding_request_witness :
    SpecRules (exampleReq "u") ∧ MaskMarginRule (exampleReq "u") ∧
      validateImageInferenceReq (exampleReq "u") = none :=
  ⟨by decide, by decide,
    (validate_accepts_rule_abiding_request (exampleReq "u") (by decide) (by decide)).1⟩

/-- C3. With a non-empty positivePrompt and model, a width below 128, above 2048 or
not divisible by 64 makes `validateImageInferenceReq` fail with the incorrect-value
error on field "width", whose format states 128-2048 and divisibility by 64,
whatever the other fields are. -/
theorem validate_width_error (req : NewImageInferenceReq)
    (hp : req.PositivePrompt ≠ "") (hm : req.Model ≠ "")
    (hw : req.Width < 128 ∨ req.Width > 2048 ∨ ¬ (64 ∣ req.Width)) :
    validateImageInferenceReq req =
      some (.errorf "%w:[%s][128-2048, divisible by 64]" .ErrFieldIncorrectVal [.str "width"]) := by
  rw [← tmod_ne_zero_iff] at hw
  unfold validateImageInferenceReq
  rw [if_neg hp, if_neg hm, if_pos hw]

theorem validate_width_error_witness :
    validateImageInferenceReq { exampleReq "u" with Width := 500 } =
        some (.errorf "%w:[%s][128-2048, divisible by 64]" .ErrFieldIncorrectVal [.str "width"]) ∧
    validateImageInferenceReq { exampleReq "u" with Width := 100 } =
        some (.errorf "%w:[%s][128-2048, divisible by 64]" .ErrFieldIncorrectVal [.str "width"]) :=
  ⟨validate_width_error _ (by decide) (by decide) (by decide),
   validate_width_error _ (by decide) (by decide) (by decide)⟩

/-- C4 (as stated, refuted). With a NaN CFGScale and every other field valid, the
first violated rule in the fixed order is the CFGScale rule, yet
`validateImageInferenceReq` returns no error. -/
theorem validate_misses_first_violation_at_nan :
    (∃ rule ∈ rulesInOrder, rule.violated { exampleReq "u" with CFGScale := .nan } = true) ∧
    firstViolation { exampleReq "u" with CFGScale := .nan } =
      some (.errorf "%w:[%s][0-50]" .ErrFieldIncorrectVal [.str "CFGScale"]) ∧
    validateImageInferenceReq { exampleReq "u" with CFGScale := .nan } = none := by
  decide

/-- C4 (amended). For every request whose CFGScale and Strength are not NaN,
`validateImageInferenceReq` returns exactly the error of the first violated rule in
the fixed order positivePrompt, model, width, height, steps, CFGScale, clipSkip,
outputQuality, numberResults, strength, maskImage needs seedImage, maskMargin,
outpaint needs seedImage, outpaint margins, outpaint blur (and no error when no rule
is violated), so two validations of one request give the same error. -/
theorem validate_returns_first_violation (req : NewImageInferenceReq)
    (hc : req.CFGScale.isNumber = true) (hs : req.Strength.isNumber = true) :
    validateImageInferenceReq req = firstViolation req :=
  validate_eq_firstViolation req hc hs

theorem validate_returns_first_violation_witness :
    validateImageInferenceReq { exampleReq "u" with Width := 100, Steps := 0 } =
        firstViolation { exampleReq "u" with Width := 100, Steps := 0 } ∧
    firstViolation { exampleReq "u" with Width := 100, Steps := 0 } =
        some (.errorf "%w:[%s][128-2048, divisible by 64]" .ErrFieldIncorrectVal [.str "width"]) :=
  ⟨validate_returns_first_violation _ (by decide) (by decide), by decide⟩

/-! ## The two operations -/

theorem imageInference_of_invalid (sdk : SDK) (req : NewImageInferenceReq) (e : GoError)
    (h : validateImageInferenceReq (mergeImageInferenceReqWithDefaults sdk.taskUUID req) = some e) :
    ImageInference sdk req = ⟨.values none (some e), []⟩ := by
  unfold ImageInference
  simp only [h]

theorem connect_of_invalid (sdk : SDK) (req : NewConnectReq) (e : GoError)
    (h : validateNewConnectReq (mergeNewConnectReqWithDefaults req) = some e) :
    Connect sdk req = ⟨.values none (some e), []⟩ := by
  unfold Connect
  simp only [h]

/-- C5. When the default-merged request fails validation, `ImageInference` and
`Connect` return a nil response with that validation error and have no transport
effect: the listener is not started and `Client.Send` is not called. -/
theorem invalid_request_no_effects (sdk : SDK) :
    (∀ (req : NewImageInferenceReq) (e : GoError),
      validateImageInferenceReq (mergeImageInferenceReqWithDefaults sdk.taskUUID req) = some e →
      ImageInference sdk req = ⟨.values none (some e), []⟩) ∧
    (∀ (req : NewConnectReq) (e : GoError),
      validateNewConnectReq (mergeNewConnectReqWithDefaults req) = some e →
      Connect sdk req = ⟨.values none (some e), []⟩) :=
  ⟨imageInference_of_invalid sdk, connect_of_invalid sdk⟩

theorem invalid_request_no_effects_witness :
    ImageInference (sampleSDK [frameOneImage] .listener)
        { PositivePrompt := "x", Model := "m", Width := 100, Height := 512 } =
      ⟨.values none
        (some (.errorf "%w:[%s][128-2048, divisible by 64]" .ErrFieldIncorrectVal [.str "width"])),
        []⟩ ∧
    Connect (sampleSDK [frameSession] .listener) {} =
      ⟨.values none (some (.errorf "%w:[%s]" .ErrFieldRequired [.str "apiKey"])), []⟩ :=
  ⟨(invalid_request_no_effects _).1 _ _ (by decide), (invalid_request_no_effects _).2 _ _ (by decide)⟩

theorem Float64.eq_ofInt_iff (x : Float64) (n : Int) :
    x.eq (.ofInt n) = true ↔ x = .fin n := by
  cases x <;> simp [Float64.eq, Float64.ofInt]

theorem connectListener_skip (sdk : SDK) (key : String) (tail : List String)
    (shared : NewConnectResp) :
    ∀ pre : List String, (∀ m ∈ pre, Unroutable sdk key m) →
      connectListener sdk key (pre ++ tail) shared =
        ⟨(connectListener sdk key tail shared).shared,
         (connectListener sdk key tail shared).offer,
         pre.map (fun _ => skipMessageLog key) ++ (connectListener sdk key tail shared).events⟩ := by
  intro pre
  induction pre with
  | nil => intro _; rfl
  | cons m pre ih =>
    intro h
    have hm : Unroutable sdk key m := h m (List.mem_cons_self _ _)
    have ih' := ih (fun x hx => h x (List.mem_cons_of_mem _ hx))
    rw [List.cons_append, connectListener]
    simp only [hm.1, hm.2, Bool.false_eq_true, if_false]
    rw [ih']
    rfl

theorem connectListener_error (sdk : SDK) (key msg : String) (rest : List String)
    (shared : NewConnectResp) (herr : (sdk.gjsonGet msg "error").asBool = true) :
    connectListener sdk key (msg :: rest) shared =
      ⟨shared, .error (some (connectError (sdk.gjsonGet msg "errorId").asFloat
        (sdk.gjsonGet msg "errorMessage").asString)), []⟩ := by
  simp only [connectListener, herr, if_true]

theorem connectListener_match (sdk : SDK) (key msg : String) (rest : List String)
    (shared : NewConnectResp) (hok : (sdk.gjsonGet msg "error").asBool = false)
    (hkey : (sdk.gjsonGet msg key).present = true) :
    connectListener sdk key (msg :: rest) shared =
      ⟨{ shared with ConnectionSessionUUID := (sdk.gjsonGet msg key).asString },
       .response { shared with ConnectionSessionUUID := (sdk.gjsonGet msg key).asString }, []⟩ := by
  simp only [connectListener, hok, hkey, if_true]
  simp

/-- C6. For an error-flagged message reached by the listener of `Connect` (after
any number of skipped messages), the error sent wraps `ErrInvalidApiKey` exactly
when the message's errorId is 19 and `ErrWsUnknownError` for every other errorId,
and in both cases it carries the message's errorId and errorMessage as operands. -/
theorem connect_error_classification (sdk : SDK) (key msg : String) (pre rest : List String)
    (shared : NewConnectResp) (hpre : ∀ m ∈ pre, Unroutable sdk key m)
    (herr : (sdk.gjsonGet msg "error").asBool = true) :
    ∃ kind : Sentinel,
      (connectListener sdk key (pre ++ msg :: rest) shared).offer =
        .error (some (.errorf "%w:[%v:%s]" kind
          [.float (sdk.gjsonGet msg "errorId").asFloat,
           .str (sdk.gjsonGet msg "errorMessage").asString])) ∧
      (kind = .ErrInvalidApiKey ↔ (sdk.gjsonGet msg "errorId").asFloat = .fin 19) ∧
      (kind = .ErrWsUnknownError ↔ (sdk.gjsonGet msg "errorId").asFloat ≠ .fin 19) := by
  rw [connectListener_skip sdk key _ shared pre hpre, connectListener_error sdk key msg rest shared herr]
  by_cases h19 : (sdk.gjsonGet msg "errorId").asFloat = .fin 19
  · refine ⟨.ErrInvalidApiKey, ?_, by simp [h19], by simp [h19]⟩
    simp [connectError, h19, Float64.eq, Float64.ofInt]
  · refine ⟨.ErrWsUnknownError, ?_, by simp [h19], by simp [h19]⟩
    have h : (sdk.gjsonGet msg "errorId").asFloat.eq (.ofInt 19) = false := by
      rw [Bool.eq_false_iff, Ne, Float64.eq_ofInt_iff]
      simpa using h19
    simp [connectError, h]

theorem connect_error_classification_witness :
    ∃ kind : Sentinel,
      (connectListener (sampleSDK [] .listener) "newConnectionSessionUUID"
          ([framePong] ++ frameError19 :: [frameSession]) {}).offer =
        .error (some (.errorf "%w:[%v:%s]" kind
          [.float ((sampleSDK [] .listener).gjsonGet frameError19 "errorId").asFloat,
           .str ((sampleSDK [] .listener).gjsonGet frameError19 "errorMessage").asString])) ∧
      (kind = .ErrInvalidApiKey ↔
        ((sampleSDK [] .listener).gjsonGet frameError19 "errorId").asFloat = .fin 19) ∧
      (kind = .ErrWsUnknownError ↔
        ((sampleSDK [] .listener).gjsonGet frameError19 "errorId").asFloat ≠ .fin 19) :=
  connect_error_classification (sampleSDK [] .listener) "newConnectionSessionUUID" frameError19
    [framePong] [frameSession] {} (by decide) (by decide)

/-- The result of the final `select` of `Connect`, from the listener's run. -/
theorem connect_after_send (sdk : SDK) (req : NewConnectReq) (b : String)
    (hv : validateNewConnectReq (mergeNewConnectReqWithDefaults req) = none)
    (hev : sdk.ToEvent (connectSendReq sdk (mergeNewConnectReqWithDefaults req)) = .ok b)
    (hsend : sdk.Client.Send b = none) :
    Connect sdk req =
      ⟨match sdk.wait with
        | .listener =>
          match (connectListener sdk sdk.NewConnectionSessionUUID sdk.Client.Listen {}).offer with
          | .response resp => .values (some resp) none
          | .error err => .values none err
          | .closed => .values none none
        | .timeout =>
          .values (some { (connectListener sdk sdk.NewConnectionSessionUUID
              sdk.Client.Listen {}).shared with TimedOut := true })
            (some (timeoutError sdk.NewConnection))
        | .ctxDone e => .values none (some (.ctx e)),
       [.listen, .send b]⟩ := by
  unfold Connect
  simp only [hv, hev, hsend]
  rfl

/-- C7. A message of `Connect` whose error indicator is set is classified as an
error whatever else it carries, the expected response key included: the listener
sends the classified error, and the request whose wait takes the listener's send
returns that error with a nil response. -/
theorem connect_error_flag_wins (sdk : SDK) (req : NewConnectReq) (b msg : String)
    (pre rest : List String)
    (hv : validateNewConnectReq (mergeNewConnectReqWithDefaults req) = none)
    (hev : sdk.ToEvent (connectSendReq sdk (mergeNewConnectReqWithDefaults req)) = .ok b)
    (hsend : sdk.Client.Send b = none)
    (hwait : sdk.wait = .listener)
    (hin : sdk.Client.Listen = pre ++ msg :: rest)
    (hpre : ∀ m ∈ pre, Unroutable sdk sdk.NewConnectionSessionUUID m)
    (herr : (sdk.gjsonGet msg "error").asBool = true) :
    Connect sdk req =
      ⟨.values none (some (connectError (sdk.gjsonGet msg "errorId").asFloat
          (sdk.gjsonGet msg "errorMessage").asString)),
       [.listen, .send b]⟩ := by
  rw [connect_after_send sdk req b hv hev hsend, hwait, hin,
    connectListener_skip sdk _ _ _ pre hpre, connectListener_error sdk _ msg rest _ herr]

theorem connect_error_flag_wins_witness :
    ((sampleSDK [framePong, frameError19, frameSession] .listener).gjsonGet frameError19
        "newConnectionSessionUUID").present = true ∧
    Connect (sampleSDK [framePong, frameError19, frameSession] .listener) { APIKey := "k" } =
      ⟨.values none (some (.errorf "%w:[%v:%s]" .ErrInvalidApiKey
          [.float (.fin 19), .str "Invalid api key"])),
       [.listen, .send "request-1"]⟩ :=
  ⟨by decide,
   connect_error_flag_wins (sampleSDK [framePong, frameError19, frameSession] .listener)
    { APIKey := "k" } "request-1" frameError19 [framePong] [frameSession]
    (by decide) rfl (by decide) (by decide) (by decide) (by decide) (by decide)⟩

/-- C8. When the inbound sequence of `Connect` is any number of unroutable messages
followed by a non-error message that carries the expected response key, the
listener logs and skips each unroutable message and sends the response; the request
whose wait takes that send returns it with no error, ConnectionSessionUUID being
the string value of the key in the matching message and TimedOut false, which is
the result for the matching message alone. -/
theorem connect_skips_unroutable (sdk : SDK) (req : NewConnectReq) (b msg : String)
    (pre rest : List String)
    (hv : validateNewConnectReq (mergeNewConnectReqWithDefaults req) = none)
    (hev : sdk.ToEvent (connectSendReq sdk (mergeNewConnectReqWithDefaults req)) = .ok b)
    (hsend : sdk.Client.Send b = none)
    (hwait : sdk.wait = .listener)
    (hin : sdk.Client.Listen = pre ++ msg :: rest)
    (hpre : ∀ m ∈ pre, Unroutable sdk sdk.NewConnectionSessionUUID m)
    (hok : (sdk.gjsonGet msg "error").asBool = false)
    (hkey : (sdk.gjsonGet msg sdk.NewConnectionSessionUUID).present = true) :
    Connect sdk req =
      ⟨.values (some { ConnectionSessionUUID :=
            (sdk.gjsonGet msg sdk.NewConnectionSessionUUID).asString, TimedOut := false }) none,
       [.listen, .send b]⟩ ∧
    Connect { sdk with Client := { sdk.Client with Listen := [msg] } } req = Connect sdk req ∧
    (connectListener sdk sdk.NewConnectionSessionUUID sdk.Client.Listen {}).events =
      pre.map (fun _ => skipMessageLog sdk.NewConnectionSessionUUID) := by
  have h1 : Connect sdk req =
      ⟨.values (some { ConnectionSessionUUID :=
            (sdk.gjsonGet msg sdk.NewConnectionSessionUUID).asString, TimedOut := false }) none,
       [.listen, .send b]⟩ := by
    rw [connect_after_send sdk req b hv hev hsend, hwait, hin,
      connectListener_skip sdk _ _ _ pre hpre, connectListener_match sdk _ msg rest _ hok hkey]
  refine ⟨h1, ?_, ?_⟩
  · obtain ⟨alone, halone⟩ :
        ∃ s : SDK, s = { sdk with Client := { sdk.Client with Listen := [msg] } } := ⟨_, rfl⟩
    rw [← halone, h1]
    have e1 : alone.wait = .listener := by rw [halone]; exact hwait
    have e2 : alone.Client.Listen = [msg] := by rw [halone]
    have e3 : alone.NewConnectionSessionUUID = sdk.NewConnectionSessionUUID := by rw [halone]
    have e4 : alone.gjsonGet = sdk.gjsonGet := by rw [halone]
    rw [connect_after_send alone req b hv (by rw [halone]; exact hev) (by rw [halone]; exact hsend),
      e1, e2, connectListener_match alone _ msg [] _ (by rw [e4]; exact hok)
        (by rw [e4, e3]; exact hkey), e3, e4]
  · rw [hin, connectListener_skip sdk _ _ _ pre hpre, connectListener_match sdk _ msg rest _ hok hkey]
    simp

theorem connect_skips_unroutable_witness :
    Connect (sampleSDK [framePong, framePong, frameSession, frameError7] .listener)
        { APIKey := "k" } =
      ⟨.values (some { ConnectionSessionUUID := "s-2", TimedOut := false }) none,
       [.listen, .send "request-1"]⟩ :=
  (connect_skips_unroutable (sampleSDK [framePong, framePong, frameSession, frameError7] .listener)
    { APIKey := "k" } "request-1" frameSession [framePong, framePong] [frameError7]
    (by decide) rfl (by decide) (by decide) (by decide) (by decide) (by decide)
    (by decide)).1

theorem scanMsgData_at_key (sdk : SDK) (key : String) (shared : Option NewImageInferenceResp)
    (first : JsonValue) (more : List JsonValue) (after : MsgData) :
    ∀ before : MsgData, (∀ kv ∈ before, kv.1 ≠ key) →
      scanMsgData sdk key shared (before ++ (key, .array (first :: more)) :: after) =
        ⟨before.map (fun kv => skipEventLog key kv.1) ++ [.payload first],
         some (decodePayload sdk shared first)⟩ := by
  intro before
  induction before with
  | nil =>
    intro _
    simp [scanMsgData]
  | cons kv before ih =>
    intro h
    obtain ⟨k, v⟩ := kv
    have hk : k ≠ key := h (k, v) (List.mem_cons_self _ _)
    have ih' := ih (fun x hx => h x (List.mem_cons_of_mem _ hx))
    rw [List.cons_append]
    unfold scanMsgData
    simp only [ne_eq, hk, not_false_eq_true, if_true, ih']
    rfl

theorem imageInferenceListener_at_key (sdk : SDK) (key msg : String) (rest : List String)
    (shared : Option NewImageInferenceResp) (before after : MsgData)
    (first : JsonValue) (more : List JsonValue)
    (hmap : sdk.jsonUnmarshalMap msg = .ok (before ++ (key, .array (first :: more)) :: after))
    (hne : (sdk.OnError (before ++ (key, .array (first :: more)) :: after)).2 = false)
    (hbefore : ∀ kv ∈ before, kv.1 ≠ key) :
    imageInferenceListener sdk key (msg :: rest) shared =
      ⟨(decodePayload sdk shared first).1, (decodePayload sdk shared first).2,
       before.map (fun kv => skipEventLog key kv.1) ++ [.payload first]⟩ := by
  rw [imageInferenceListener]
  simp only [hmap]
  cases hOn : sdk.OnError (before ++ (key, .array (first :: more)) :: after) with
  | mk errMsg flag =>
    rw [hOn] at hne
    simp only at hne
    subst hne
    simp only [scanMsgData_at_key sdk key shared first more after before hbefore]

/-- C9 (as stated, refuted). On a frame whose expected-response-key value is the
two-element sequence `[a, b]`, the listener of `ImageInference` hands only `a` to
the decoder; `b` is never looked at, and the operation returns what it returns for
the frame that holds `[a]` alone. -/
theorem imageInference_discards_remaining_elements :
    (imageInferenceListener (sampleSDK [] .listener) "newImages" [frameTwoImages] (some {})).events =
      [.payload (.object [("imageUUID", .string "a")])] ∧
    Event.payload (.object [("imageUUID", .string "b")]) ∉
      (imageInferenceListener (sampleSDK [] .listener) "newImages" [frameTwoImages] (some {})).events ∧
    (ImageInference (sampleSDK [frameTwoImages] .listener) (exampleReq "t")).result =
      .values (some { ImageUUID := "a" }) none ∧
    (ImageInference (sampleSDK [frameTwoImages] .listener) (exampleReq "t")).result =
      (ImageInference (sampleSDK [frameOneImage] .listener) (exampleReq "t")).result := by
  refine ⟨rfl, ?_, rfl, rfl⟩
  rw [show (imageInferenceListener (sampleSDK [] .listener) "newImages" [frameTwoImages]
    (some {})).events = [.payload (.object [("imageUUID", .string "a")])] from rfl]
  simp

/-- C9 (amended). For a non-error message whose expected-response-key value is a
non-empty sequence, the listener of `ImageInference` takes the first element as the
payload: it alone is decoded, the decoded value is what the listener delivers, and
the listener stops there; the remaining elements of the sequence, the entries after
the key and the later messages have no effect on the result. -/
theorem imageInference_takes_first_element (sdk : SDK) (key msg : String) (rest : List String)
    (shared : Option NewImageInferenceResp) (before after : MsgData)
    (first : JsonValue) (more : List JsonValue)
    (hmap : sdk.jsonUnmarshalMap msg = .ok (before ++ (key, .array (first :: more)) :: after))
    (hne : (sdk.OnError (before ++ (key, .array (first :: more)) :: after)).2 = false)
    (hbefore : ∀ kv ∈ before, kv.1 ≠ key) :
    imageInferenceListener sdk key (msg :: rest) shared =
      ⟨(decodePayload sdk shared first).1, (decodePayload sdk shared first).2,
       before.map (fun kv => skipEventLog key kv.1) ++ [.payload first]⟩ ∧
    (∀ (bValue : String) (p : Option NewImageInferenceResp),
      sdk.interfaceToByte first = .ok bValue → sdk.jsonUnmarshalResp bValue shared = (p, none) →
      (imageInferenceListener sdk key (msg :: rest) shared).offer = .response p) := by
  have h := imageInferenceListener_at_key sdk key msg rest shared before after first more
    hmap hne hbefore
  refine ⟨h, ?_⟩
  intro bValue p hb hu
  rw [h]
  simp only [decodePayload, hb, hu]

theorem imageInference_takes_first_element_witness :
    imageInferenceListener (sampleSDK [] .listener) "newImages" (frameTaggedImages :: [framePong])
        (some {}) =
      ⟨some { ImageUUID := "a" }, .response (some { ImageUUID := "a" }),
       [skipEventLog "newImages" "taskType", .payload (.object [("imageUUID", .string "a")])]⟩ :=
  (imageInference_takes_first_element (sampleSDK [] .listener) "newImages" frameTaggedImages
    [framePong] (some {}) [("taskType", .string "imageInference")] []
    (.object [("imageUUID", .string "a")]) [.object [("imageUUID", .string "b")]]
    rfl rfl (by decide)).1

theorem connectListener_timedOut (sdk : SDK) (key : String) :
    ∀ (inbound : List String) (shared : NewConnectResp),
      (connectListener sdk key inbound shared).shared.TimedOut = shared.TimedOut ∧
      ∀ resp, (connectListener sdk key inbound shared).offer = .response resp →
        resp.TimedOut = shared.TimedOut := by
  intro inbound
  induction inbound with
  | nil =>
    intro shared
    refine ⟨rfl, ?_⟩
    intro resp h
    simp [connectListener] at h
  | cons msg rest ih =>
    intro shared
    unfold connectListener
    cases herr : (sdk.gjsonGet msg "error").asBool with
    | true => simp
    | false =>
      cases hkey : (sdk.gjsonGet msg key).present with
      | true =>
        simp only [Bool.false_eq_true, if_false, if_true, Offer.response.injEq, true_and]
        intro resp h
        rw [← h]
      | false =>
        simp only [Bool.false_eq_true, if_false]
        exact ih shared

theorem connect_response_not_timedOut (sdk : SDK) (req : NewConnectReq)
    (hwait : sdk.wait ≠ .timeout) (resp : NewConnectResp) (err : Option GoError)
    (h : (Connect sdk req).result = .values (some resp) err) : resp.TimedOut = false := by
  unfold Connect at h
  cases hv : validateNewConnectReq (mergeNewConnectReqWithDefaults req) with
  | some e => simp [hv] at h
  | none =>
    simp only [hv] at h
    cases hev : sdk.ToEvent (connectSendReq sdk (mergeNewConnectReqWithDefaults req)) with
    | error e => simp [hev] at h
    | ok b =>
      simp only [hev] at h
      cases hs : sdk.Client.Send b with
      | some e => simp [hs] at h
      | none =>
        simp only [hs] at h
        cases hw : sdk.wait with
        | timeout => exact absurd hw hwait
        | ctxDone e => simp [hw] at h
        | listener =>
          simp only [hw] at h
          cases ho : (connectListener sdk (connectSendReq sdk
              (mergeNewConnectReqWithDefaults req)).ResponseEvent sdk.Client.Listen {}).offer with
          | error e => simp [ho] at h
          | closed => simp [ho] at h
          | response r =>
            simp only [ho, Returned.values.injEq, Option.some.injEq] at h
            have := (connectListener_timedOut sdk _ sdk.Client.Listen {}).2 r ho
            rw [← h.1, this]

/-- The result of the final `select` of `ImageInference`, from the listener's run. -/
theorem imageInference_after_send (sdk : SDK) (req : NewImageInferenceReq) (b : String)
    (hv : validateImageInferenceReq (mergeImageInferenceReqWithDefaults sdk.taskUUID req) = none)
    (hev : sdk.ToEvent (imageInferenceSendReq sdk
      (mergeImageInferenceReqWithDefaults sdk.taskUUID req)) = .ok b)
    (hsend : sdk.Client.Send b = none) :
    ImageInference sdk req =
      ⟨match sdk.wait with
        | .listener =>
          match (imageInferenceListener sdk sdk.NewImage sdk.Client.Listen (some {})).offer with
          | .response resp => .values resp none
          | .error err => .values none err
          | .closed => .values none none
        | .timeout =>
          match (imageInferenceListener sdk sdk.NewImage sdk.Client.Listen (some {})).shared with
          | some resp => .values (some { resp with TimedOut := true }) (some (timeoutError sdk.NewTask))
          | none => .nilDereference
        | .ctxDone e => .values none (some (.ctx e)),
       [.listen, .send b]⟩ := by
  unfold ImageInference
  simp only [hv, hev, hsend]
  rfl

theorem imageInference_response_from_listener (sdk : SDK) (req : NewImageInferenceReq)
    (hwait : sdk.wait ≠ .timeout) (resp : NewImageInferenceResp) (err : Option GoError)
    (h : (ImageInference sdk req).result = .values (some resp) err) :
    (imageInferenceListener sdk sdk.NewImage sdk.Client.Listen (some {})).offer =
      .response (some resp) := by
  unfold ImageInference at h
  cases hv : validateImageInferenceReq (mergeImageInferenceReqWithDefaults sdk.taskUUID req) with
  | some e => simp [hv] at h
  | none =>
    simp only [hv] at h
    cases hev : sdk.ToEvent (imageInferenceSendReq sdk
        (mergeImageInferenceReqWithDefaults sdk.taskUUID req)) with
    | error e => simp [hev] at h
    | ok b =>
      simp only [hev] at h
      cases hs : sdk.Client.Send b with
      | some e => simp [hs] at h
      | none =>
        simp only [hs] at h
        cases hw : sdk.wait with
        | timeout => exact absurd hw hwait
        | ctxDone e => simp [hw] at h
        | listener =>
          simp only [hw] at h
          cases ho : (imageInferenceListener sdk (imageInferenceSendReq sdk
              (mergeImageInferenceReqWithDefaults sdk.taskUUID req)).ResponseEvent
              sdk.Client.Listen (some {})).offer with
          | error e => simp [ho] at h
          | closed => simp [ho] at h
          | response r =>
            simp only [ho, Returned.values.injEq] at h
            rw [← h.1]
            exact ho

/-- C10 (as stated, refuted). `ImageInference` returns, through the listener's send
and with a nil error, a response whose TimedOut flag is true: the flag is a decoded
field of the payload. -/
theorem imageInference_timedOut_without_timeout :
    ImageInference (sampleSDK [frameTimedOutImage] .listener) (exampleReq "t") =
      ⟨.values (some { TimedOut := true }) none, [.listen, .send "request-1"]⟩ := by
  rfl

/-- C10 (amended). When the timeout case of the wait is taken, `Connect` returns a
non-nil response whose TimedOut flag is true with an error that wraps
`ErrRequestTimeout`, and so does `ImageInference` provided the response pointer it
shares with its listener is not nil then. On every other outcome the response
`Connect` returns, if any, has TimedOut false, and the response `ImageInference`
returns, if any, is the value its listener decoded and sent. -/
theorem timeout_marks_response (sdk : SDK) (creq : NewConnectReq) (ireq : NewImageInferenceReq) :
    (∀ b, validateNewConnectReq (mergeNewConnectReqWithDefaults creq) = none →
      sdk.ToEvent (connectSendReq sdk (mergeNewConnectReqWithDefaults creq)) = .ok b →
      sdk.Client.Send b = none → sdk.wait = .timeout →
      ∃ resp err, Connect sdk creq = ⟨.values (some resp) (some err), [.listen, .send b]⟩ ∧
        resp.TimedOut = true ∧ err = timeoutError sdk.NewConnection ∧
        err.wraps = some .ErrRequestTimeout) ∧
    (∀ b shared,
      validateImageInferenceReq (mergeImageInferenceReqWithDefaults sdk.taskUUID ireq) = none →
      sdk.ToEvent (imageInferenceSendReq sdk
        (mergeImageInferenceReqWithDefaults sdk.taskUUID ireq)) = .ok b →
      sdk.Client.Send b = none → sdk.wait = .timeout →
      (imageInferenceListener sdk sdk.NewImage sdk.Client.Listen (some {})).shared = some shared →
      ∃ resp err, ImageInference sdk ireq = ⟨.values (some resp) (some err), [.listen, .send b]⟩ ∧
        resp = { shared with TimedOut := true } ∧ resp.TimedOut = true ∧
        err = timeoutError sdk.NewTask ∧ err.wraps = some .ErrRequestTimeout) ∧
    (sdk.wait ≠ .timeout → ∀ resp err, (Connect sdk creq).result = .values (some resp) err →
      resp.TimedOut = false) ∧
    (sdk.wait ≠ .timeout → ∀ resp err, (ImageInference sdk ireq).result = .values (some resp) err →
      (imageInferenceListener sdk sdk.NewImage sdk.Client.Listen (some {})).offer =
        .response (some resp)) := by
  refine ⟨?_, ?_, ?_, ?_⟩
  · intro b hv hev hsend hwait
    refine ⟨{ (connectListener sdk sdk.NewConnectionSessionUUID sdk.Client.Listen {}).shared with
      TimedOut := true }, timeoutError sdk.NewConnection, ?_, rfl, rfl, rfl⟩
    rw [connect_after_send sdk creq b hv hev hsend, hwait]
  · intro b shared hv hev hsend hwait hshared
    refine ⟨{ shared with TimedOut := true }, timeoutError sdk.NewTask, ?_, rfl, rfl, rfl, rfl⟩
    rw [imageInference_after_send sdk ireq b hv hev hsend, hwait, hshared]
  · intro hwait resp err h
    exact connect_response_not_timedOut sdk creq hwait resp err h
  · intro hwait resp err h
    exact imageInference_response_from_listener sdk ireq hwait resp err h

theorem timeout_marks_response_witness :
    (∃ resp err, Connect (sampleSDK [framePong] .timeout) { APIKey := "k" } =
        ⟨.values (some resp) (some err), [.listen, .send "request-1"]⟩ ∧
      resp.TimedOut = true ∧ err = timeoutError "newConnection" ∧
      err.wraps = some .ErrRequestTimeout) ∧
    (∃ resp err, ImageInference (sampleSDK [framePong] .timeout) (exampleReq "t") =
        ⟨.values (some resp) (some err), [.listen, .send "request-1"]⟩ ∧
      resp = { ({} : NewImageInferenceResp) with TimedOut := true } ∧ resp.TimedOut = true ∧
      err = timeoutError "newTask" ∧ err.wraps = some .ErrRequestTimeout) :=
  ⟨(timeout_marks_response (sampleSDK [framePong] .timeout) { APIKey := "k" } (exampleReq "t")).1
      "request-1" (by decide) rfl (by decide) (by decide),
   (timeout_marks_response (sampleSDK [framePong] .timeout) { APIKey := "k" }
      (exampleReq "t")).2.1 "request-1" {} (by decide) rfl (by decide) (by decide) rfl⟩

/-! ## The mask-margin check -/

theorem validate_of_passes (req : NewImageInferenceReq) (h : PassesChecksBeforeMaskMargin req) :
    validateImageInferenceReq req =
      if req.MaskMargin ≠ 0 ∧ (req.MaskMargin < 32 ∨ req.MaskMargin > 128) then some maskMarginError
      else
        match req.Outpaint with
        | some o => validateOutpaint req.SeedImage o
        | none => none := by
  obtain ⟨h1, h2, h3, h4, h5, h6, h7, h8, h9, h10, h11⟩ := h
  obtain ⟨e1, e2, e3, e4⟩ := defaultStrengthForSeed_fields req
  unfold validateImageInferenceReq
  rw [if_neg h1, if_neg h2, if_neg h3, if_neg h4, if_neg h5, if_neg h6, if_neg h7, if_neg h8,
    if_neg h9, if_neg h10]
  simp only [e1, e2, e3, e4]
  rw [if_neg h11]
  rfl

theorem validateOutpaint_ne_maskMarginError (seedImage : String) (o : Outpaint) :
    validateOutpaint seedImage o ≠ some maskMarginError := by
  unfold validateOutpaint maskMarginError
  split_ifs <;> simp

theorem validate_congr (r s : NewImageInferenceReq)
    (h1 : s.PositivePrompt = r.PositivePrompt) (h2 : s.Model = r.Model)
    (h3 : s.Width = r.Width) (h4 : s.Height = r.Height) (h5 : s.Steps = r.Steps)
    (h6 : s.CFGScale = r.CFGScale) (h7 : s.ClipSkip = r.ClipSkip)
    (h8 : s.OutputQuality = r.OutputQuality) (h9 : s.NumberResults = r.NumberResults)
    (h10 : s.Strength = r.Strength) (h11 : s.MaskImage = r.MaskImage)
    (h12 : s.SeedImage = r.SeedImage) (h13 : s.Outpaint = r.Outpaint)
    (hr : ¬ (r.MaskMargin ≠ 0 ∧ (r.MaskMargin < 32 ∨ r.MaskMargin > 128)))
    (hs : ¬ (s.MaskMargin ≠ 0 ∧ (s.MaskMargin < 32 ∨ s.MaskMargin > 128))) :
    validateImageInferenceReq r = validateImageInferenceReq s := by
  obtain ⟨e1, e2, e3, e4⟩ := defaultStrengthForSeed_fields r
  obtain ⟨f1, f2, f3, f4⟩ := defaultStrengthForSeed_fields s
  unfold validateImageInferenceReq
  simp only [e1, e2, e3, e4, f1, f2, f3, f4, h1, h2, h3, h4, h5, h6, h7, h8, h9, h10, h11, h12,
    h13, if_neg hr, if_neg hs]

theorem validate_ne_maskMarginError (req : NewImageInferenceReq) (h : MaskMarginRule req) :
    validateImageInferenceReq req ≠ some maskMarginError := by
  have hm : ¬ (req.MaskMargin ≠ 0 ∧ (req.MaskMargin < 32 ∨ req.MaskMargin > 128)) :=
    fun hbad => (maskMargin_bad_iff req).mp hbad h
  obtain ⟨e1, e2, e3, e4⟩ := defaultStrengthForSeed_fields req
  have hO : (match req.Outpaint with
      | some o => validateOutpaint req.SeedImage o
      | none => none) ≠ some maskMarginError := by
    cases req.Outpaint with
    | none => simp
    | some o => exact validateOutpaint_ne_maskMarginError _ o
  unfold validateImageInferenceReq
  dsimp only
  rw [e1, e2, e3, e4, if_neg hm]
  generalize (match req.Outpaint with
      | some o => validateOutpaint req.SeedImage o
      | none => none) = tail at hO ⊢
  unfold maskMarginError at hO ⊢
  by_cases c1 : req.PositivePrompt = ""
  · rw [if_pos c1]; decide
  rw [if_neg c1]
  by_cases c2 : req.Model = ""
  · rw [if_pos c2]; decide
  rw [if_neg c2]
  by_cases c3 : req.Width < 128 ∨ req.Width > 2048 ∨ req.Width.tmod 64 ≠ 0
  · rw [if_pos c3]; decide
  rw [if_neg c3]
  by_cases c4 : req.Height < 128 ∨ req.Height > 2048 ∨ req.Height.tmod 64 ≠ 0
  · rw [if_pos c4]; decide
  rw [if_neg c4]
  by_cases c5 : req.Steps < 1 ∨ req.Steps > 100
  · rw [if_pos c5]; decide
  rw [if_neg c5]
  by_cases c6 : req.CFGScale.lt (.ofInt 0) = true ∨ req.CFGScale.gt (.ofInt 50) = true
  · rw [if_pos c6]; decide
  rw [if_neg c6]
  by_cases c7 : req.ClipSkip.any (fun c => c < 0 ∨ c > 2) = true
  · rw [if_pos c7]; decide
  rw [if_neg c7]
  by_cases c8 : req.OutputQuality < 20 ∨ req.OutputQuality > 99
  · rw [if_pos c8]; decide
  rw [if_neg c8]
  by_cases c9 : req.NumberResults < 1 ∨ req.NumberResults > 20
  · rw [if_pos c9]; decide
  rw [if_neg c9]
  by_cases c10 : req.Strength.lt (.ofInt 0) = true ∨ req.Strength.gt (.ofInt 1) = true
  · rw [if_pos c10]; decide
  rw [if_neg c10]
  by_cases c11 : req.MaskImage ≠ "" ∧ req.SeedImage = ""
  · rw [if_pos c11]; decide
  rw [if_neg c11]
  exact hO

theorem validate_maskMargin_irrelevant (req : NewImageInferenceReq) (h : MaskMarginRule req) :
    validateImageInferenceReq req = validateImageInferenceReq { req with MaskMargin := 0 } ∧
    validateImageInferenceReq req ≠ some maskMarginError := by
  have hm : ¬ (req.MaskMargin ≠ 0 ∧ (req.MaskMargin < 32 ∨ req.MaskMargin > 128)) :=
    fun hbad => (maskMargin_bad_iff req).mp hbad h
  exact ⟨validate_congr req { req with MaskMargin := 0 } rfl rfl rfl rfl rfl rfl rfl rfl rfl rfl
    rfl rfl rfl hm (fun hbad => hbad.1 rfl), validate_ne_maskMarginError req h⟩

/-- C12. For a request that gets past every check up to and including the one that
a mask image needs a seed image, a maskMargin that is not zero and lies outside
[32,128] is rejected with the incorrect-value error on "maskMargin"; a maskMargin
that is zero or within [32,128] never causes a rejection: the validator answers as
it does with maskMargin zero, and never with the maskMargin error. -/
theorem maskMargin_check (req : NewImageInferenceReq) :
    (PassesChecksBeforeMaskMargin req →
      req.MaskMargin ≠ 0 → (req.MaskMargin < 32 ∨ req.MaskMargin > 128) →
      validateImageInferenceReq req =
        some (.errorf "%w:[%s][32-128]" .ErrFieldIncorrectVal [.str "maskMargin"])) ∧
    (req.MaskMargin = 0 ∨ (32 ≤ req.MaskMargin ∧ req.MaskMargin ≤ 128) →
      validateImageInferenceReq req = validateImageInferenceReq { req with MaskMargin := 0 } ∧
      validateImageInferenceReq req ≠
        some (.errorf "%w:[%s][32-128]" .ErrFieldIncorrectVal [.str "maskMargin"])) := by
  constructor
  · intro hpass h0 hout
    rw [validate_of_passes req hpass, if_pos ⟨h0, hout⟩]
    rfl
  · intro h
    exact validate_maskMargin_irrelevant req h

theorem maskMargin_check_witness :
    validateImageInferenceReq { exampleReq "u" with MaskMargin := 200 } =
      some (.errorf "%w:[%s][32-128]" .ErrFieldIncorrectVal [.str "maskMargin"]) ∧
    validateImageInferenceReq { exampleReq "u" with MaskMargin := 64 } =
      validateImageInferenceReq { { exampleReq "u" with MaskMargin := 64 } with MaskMargin := 0 } :=
  ⟨(maskMargin_check { exampleReq "u" with MaskMargin := 200 }).1 (by decide) (by decide)
      (by decide),
   ((maskMargin_check { exampleReq "u" with MaskMargin := 64 }).2 (by decide)).1⟩

/-! ## Several listeners on one inbound stream -/

theorem connectListener_cons_offer (sdk : SDK) (key msg : String) (rest : List String) :
    (connectListener sdk key (msg :: rest) {}).offer =
      match connectStep sdk key msg with
      | some offer => offer
      | none => (connectListener sdk key rest {}).offer := by
  unfold connectStep
  cases herr : (sdk.gjsonGet msg "error").asBool with
  | true => simp [connectListener, herr]
  | false =>
    cases hkey : (sdk.gjsonGet msg key).present with
    | true => simp [connectListener, herr, hkey]
    | false => simp [connectListener, herr, hkey]

theorem decodePayload_ne_closed (sdk : SDK) (shared : Option NewImageInferenceResp)
    (first : JsonValue) (p : Option NewImageInferenceResp) :
    decodePayload sdk shared first ≠ (p, .closed) := by
  unfold decodePayload
  cases sdk.interfaceToByte first with
  | error err => simp
  | ok bValue =>
    cases h : sdk.jsonUnmarshalResp bValue shared with
    | mk q err => cases err <;> simp [h]

theorem scanMsgData_stop_ne_closed (sdk : SDK) (key : String)
    (shared : Option NewImageInferenceResp) (p : Option NewImageInferenceResp) :
    ∀ msgData : MsgData, (scanMsgData sdk key shared msgData).stop ≠ some (p, .closed) := by
  intro msgData
  induction msgData with
  | nil => simp [scanMsgData]
  | cons kv rest ih =>
    obtain ⟨k, v⟩ := kv
    unfold scanMsgData
    by_cases hk : k ≠ key
    · simp only [hk, not_false_eq_true, if_true, ne_eq]
      exact ih
    · simp only [hk, if_false]
      split
      · intro h
        exact decodePayload_ne_closed sdk shared _ p (Option.some.inj h)
      · exact ih

theorem imageInferenceListener_cons_offer (sdk : SDK) (key msg : String) (rest : List String) :
    (imageInferenceListener sdk key (msg :: rest) (some {})).offer =
      match imageInferenceStep sdk key msg with
      | some offer => offer
      | none => (imageInferenceListener sdk key rest (some {})).offer := by
  unfold imageInferenceStep
  cases hmap : sdk.jsonUnmarshalMap msg with
  | error text => simp [imageInferenceListener, hmap]
  | ok msgData =>
    cases hOn : sdk.OnError msgData with
    | mk errMsg flag =>
      cases flag with
      | true => simp [imageInferenceListener, hmap, hOn]
      | false =>
        cases hstop : (scanMsgData sdk key (some {}) msgData).stop with
        | none => simp [imageInferenceListener, hmap, hOn, hstop]
        | some stop =>
          obtain ⟨p, offer⟩ := stop
          cases offer with
          | closed => exact absurd hstop (scanMsgData_stop_ne_closed sdk key _ p msgData)
          | response r => simp [imageInferenceListener, hmap, hOn, hstop]
          | error e => simp [imageInferenceListener, hmap, hOn, hstop]

/-- C11 (as stated, refuted). Two `ImageInference` listeners wait on one stream,
on which two matching responses arrive. When the second-registered listener reads
the first response, the first-registered request receives the second-delivered
response; so it does when the first-registered listener has first read a message
for another key and the second-registered listener reads the first response. -/
theorem concurrent_listeners_swap_responses :
    imageInferenceStep (sampleSDK [] .listener) "newImages" frameOneImage =
      some (.response (some { ImageUUID := "a" })) ∧
    imageInferenceStep (sampleSDK [] .listener) "newImages" frameTimedOutImage =
      some (.response (some { TimedOut := true })) ∧
    runSchedule (imageInferenceStep (sampleSDK [] .listener) "newImages")
        [(1, frameOneImage), (0, frameTimedOutImage)] [none, none] =
      [some (.response (some { TimedOut := true })),
       some (.response (some { ImageUUID := "a" }))] ∧
    runSchedule (imageInferenceStep (sampleSDK [] .listener) "newImages")
        [(0, framePong), (1, frameOneImage), (0, frameTimedOutImage)] [none, none] =
      [some (.response (some { TimedOut := true })),
       some (.response (some { ImageUUID := "a" }))] :=
  ⟨rfl, rfl, rfl, rfl⟩

theorem deliver_getElem?_self {R : Type} (step : String → Option (Offer R)) (msg : String) :
    ∀ (reader : Nat) (ws : Waiters R),
      (deliver step reader msg ws)[reader]? =
        ws[reader]?.map (fun w => match w with
          | some offer => some offer
          | none => step msg) := by
  intro reader
  induction reader with
  | zero =>
    intro ws
    cases ws with
    | nil => simp [deliver]
    | cons w ws => cases w <;> simp [deliver]
  | succ reader ih =>
    intro ws
    cases ws with
    | nil => simp [deliver]
    | cons w ws =>
      rw [deliver, List.getElem?_cons_succ, List.getElem?_cons_succ]
      exact ih ws

theorem deliver_getElem?_other {R : Type} (step : String → Option (Offer R)) (msg : String) :
    ∀ (reader i : Nat) (ws : Waiters R), reader ≠ i →
      (deliver step reader msg ws)[i]? = ws[i]? := by
  intro reader
  induction reader with
  | zero =>
    intro i ws hne
    cases ws with
    | nil => simp [deliver]
    | cons w ws =>
      cases i with
      | zero => exact absurd rfl hne
      | succ i => cases w <;> simp [deliver]
  | succ reader ih =>
    intro i ws hne
    cases ws with
    | nil => simp [deliver]
    | cons w ws =>
      rw [deliver]
      cases i with
      | zero => simp
      | succ i =>
        rw [List.getElem?_cons_succ, List.getElem?_cons_succ]
        exact ih i ws (fun h => hne (by rw [h]))

theorem runSchedule_getElem? {R : Type} (step : String → Option (Offer R))
    (alone : List String → Option (Offer R)) (hnil : alone [] = none)
    (hcons : ∀ msg rest, alone (msg :: rest) = (step msg).or (alone rest))
    (i : Nat) :
    ∀ (schedule : List (Nat × String)) (ws : Waiters R),
      (runSchedule step schedule ws)[i]? =
        ws[i]?.map (fun w => w.or (alone (readBy i schedule))) := by
  intro schedule
  induction schedule with
  | nil =>
    intro ws
    simp only [runSchedule, readBy, hnil]
    cases ws[i]? with
    | none => rfl
    | some w => cases w <;> rfl
  | cons entry schedule ih =>
    intro ws
    obtain ⟨reader, msg⟩ := entry
    rw [runSchedule, ih]
    by_cases hr : reader = i
    · subst hr
      rw [deliver_getElem?_self, readBy, if_pos rfl, hcons]
      cases ws[reader]? with
      | none => rfl
      | some w =>
        cases w with
        | some offer => rfl
        | none => rfl
    · rw [deliver_getElem?_other step msg reader i ws hr, readBy, if_neg hr]

theorem connectStep_eq (sdk : SDK) (key msg : String) :
    connectStep sdk key msg = stoppedWith (connectListener sdk key [msg] {}).offer := by
  unfold connectStep stoppedWith
  cases (connectListener sdk key [msg] {}).offer <;> rfl

theorem imageInferenceStep_eq (sdk : SDK) (key msg : String) :
    imageInferenceStep sdk key msg =
      stoppedWith (imageInferenceListener sdk key [msg] (some {})).offer := by
  unfold imageInferenceStep stoppedWith
  cases (imageInferenceListener sdk key [msg] (some {})).offer <;> rfl

theorem stoppedWith_connectListener_cons (sdk : SDK) (key msg : String) (rest : List String) :
    stoppedWith (connectListener sdk key (msg :: rest) {}).offer =
      (connectStep sdk key msg).or (stoppedWith (connectListener sdk key rest {}).offer) := by
  rw [connectListener_cons_offer]
  cases h : connectStep sdk key msg with
  | none => rfl
  | some offer =>
    rw [connectStep_eq] at h
    cases offer with
    | closed =>
      cases h2 : (connectListener sdk key [msg] {}).offer <;> simp [h2, stoppedWith] at h
    | response r => rfl
    | error e => rfl

theorem stoppedWith_imageInferenceListener_cons (sdk : SDK) (key msg : String)
    (rest : List String) :
    stoppedWith (imageInferenceListener sdk key (msg :: rest) (some {})).offer =
      (imageInferenceStep sdk key msg).or
        (stoppedWith (imageInferenceListener sdk key rest (some {})).offer) := by
  rw [imageInferenceListener_cons_offer]
  cases h : imageInferenceStep sdk key msg with
  | none => rfl
  | some offer =>
    rw [imageInferenceStep_eq] at h
    cases offer with
    | closed =>
      cases h2 : (imageInferenceListener sdk key [msg] (some {})).offer <;>
        simp [h2, stoppedWith] at h
    | response r => rfl
    | error e => rfl

theorem scanMsgData_no_key (sdk : SDK) (key : String) (shared : Option NewImageInferenceResp) :
    ∀ msgData : MsgData, (∀ kv ∈ msgData, kv.1 ≠ key) →
      (scanMsgData sdk key shared msgData).stop = none := by
  intro msgData
  induction msgData with
  | nil => intro _; rfl
  | cons kv rest ih =>
    intro h
    obtain ⟨k, v⟩ := kv
    have hk : k ≠ key := h (k, v) (List.mem_cons_self _ _)
    unfold scanMsgData
    simp only [ne_eq, hk, not_false_eq_true, if_true]
    exact ih (fun x hx => h x (List.mem_cons_of_mem _ hx))

theorem imageInferenceListener_skip_one (sdk : SDK) (key msg : String) (rest : List String)
    (shared : Option NewImageInferenceResp) (h : ImageUnroutable sdk key msg) :
    (imageInferenceListener sdk key (msg :: rest) shared).offer =
      (imageInferenceListener sdk key rest shared).offer := by
  unfold ImageUnroutable at h
  cases hmap : sdk.jsonUnmarshalMap msg with
  | error text => simp [hmap] at h
  | ok msgData =>
    simp only [hmap] at h
    cases hOn : sdk.OnError msgData with
    | mk errMsg flag =>
      rw [hOn] at h
      have hflag : flag = false := h.1
      subst hflag
      rw [imageInferenceListener]
      simp only [hmap, hOn, scanMsgData_no_key sdk key shared msgData h.2]

theorem imageInferenceListener_skip (sdk : SDK) (key : String) (tail : List String)
    (shared : Option NewImageInferenceResp) :
    ∀ pre : List String, (∀ m ∈ pre, ImageUnroutable sdk key m) →
      (imageInferenceListener sdk key (pre ++ tail) shared).offer =
        (imageInferenceListener sdk key tail shared).offer := by
  intro pre
  induction pre with
  | nil => intro _; rfl
  | cons m pre ih =>
    intro h
    rw [List.cons_append,
      imageInferenceListener_skip_one sdk key m _ shared (h m (List.mem_cons_self _ _))]
    exact ih (fun x hx => h x (List.mem_cons_of_mem _ hx))

theorem stoppedWith_decodePayload (sdk : SDK) (shared : Option NewImageInferenceResp)
    (first : JsonValue) :
    stoppedWith (decodePayload sdk shared first).2 = some (decodePayload sdk shared first).2 := by
  cases h : (decodePayload sdk shared first).2 with
  | closed =>
    exact absurd (Prod.ext rfl h : decodePayload sdk shared first =
      ((decodePayload sdk shared first).1, .closed)) (decodePayload_ne_closed sdk shared first _)
  | response r => rfl
  | error e => rfl

/-- C11 (amended). Whatever listener reads which message of the shared stream, the
request registered i-th resolves as its own listener does on the messages that
listener reads, in the order it reads them: it receives the first matching
response among them when the messages it read before are for other keys, and it
is still waiting when its listener has reached no send. This holds for `Connect`
and for `ImageInference`; no registration order enters. -/
theorem request_resolves_on_own_reads (sdk : SDK) (schedule : List (Nat × String)) (n i : Nat)
    (hi : i < n) :
    ((runSchedule (connectStep sdk sdk.NewConnectionSessionUUID) schedule
        (List.replicate n none))[i]? =
      some (stoppedWith (connectListener sdk sdk.NewConnectionSessionUUID
        (readBy i schedule) {}).offer)) ∧
    ((runSchedule (imageInferenceStep sdk sdk.NewImage) schedule
        (List.replicate n none))[i]? =
      some (stoppedWith (imageInferenceListener sdk sdk.NewImage
        (readBy i schedule) (some {})).offer)) ∧
    (∀ (pre rest : List String) (msg : String),
      readBy i schedule = pre ++ msg :: rest →
      (∀ m ∈ pre, Unroutable sdk sdk.NewConnectionSessionUUID m) →
      (sdk.gjsonGet msg "error").asBool = false →
      (sdk.gjsonGet msg sdk.NewConnectionSessionUUID).present = true →
      (runSchedule (connectStep sdk sdk.NewConnectionSessionUUID) schedule
          (List.replicate n none))[i]? =
        some (some (.response
          { ConnectionSessionUUID := (sdk.gjsonGet msg sdk.NewConnectionSessionUUID).asString,
            TimedOut := false }))) ∧
    (∀ (pre rest : List String) (msg : String) (before after : MsgData) (first : JsonValue)
        (more : List JsonValue),
      readBy i schedule = pre ++ msg :: rest →
      (∀ m ∈ pre, ImageUnroutable sdk sdk.NewImage m) →
      sdk.jsonUnmarshalMap msg =
        .ok (before ++ (sdk.NewImage, .array (first :: more)) :: after) →
      (sdk.OnError (before ++ (sdk.NewImage, .array (first :: more)) :: after)).2 = false →
      (∀ kv ∈ before, kv.1 ≠ sdk.NewImage) →
      (runSchedule (imageInferenceStep sdk sdk.NewImage) schedule
          (List.replicate n none))[i]? =
        some (some (decodePayload sdk (some {}) first).2)) := by
  have hget : ∀ R : Type, (List.replicate n (none : Option (Offer R)))[i]? = some none := by
    intro R
    rw [List.getElem?_replicate, if_pos hi]
  have hc : (runSchedule (connectStep sdk sdk.NewConnectionSessionUUID) schedule
        (List.replicate n none))[i]? =
      some (stoppedWith (connectListener sdk sdk.NewConnectionSessionUUID
        (readBy i schedule) {}).offer) := by
    rw [runSchedule_getElem? (connectStep sdk sdk.NewConnectionSessionUUID)
      (fun msgs => stoppedWith (connectListener sdk sdk.NewConnectionSessionUUID msgs {}).offer)
      rfl (fun msg rest => stoppedWith_connectListener_cons sdk _ msg rest) i schedule, hget]
    rfl
  have hm : (runSchedule (imageInferenceStep sdk sdk.NewImage) schedule
        (List.replicate n none))[i]? =
      some (stoppedWith (imageInferenceListener sdk sdk.NewImage
        (readBy i schedule) (some {})).offer) := by
    rw [runSchedule_getElem? (imageInferenceStep sdk sdk.NewImage)
      (fun msgs => stoppedWith (imageInferenceListener sdk sdk.NewImage msgs (some {})).offer)
      rfl (fun msg rest => stoppedWith_imageInferenceListener_cons sdk _ msg rest) i schedule, hget]
    rfl
  refine ⟨hc, hm, ?_, ?_⟩
  · intro pre rest msg hread hpre hok hkey
    rw [hc, hread, connectListener_skip sdk _ _ _ pre hpre,
      connectListener_match sdk _ msg rest _ hok hkey]
    rfl
  · intro pre rest msg before after first more hread hpre hmap hne hbefore
    rw [hm, hread, imageInferenceListener_skip sdk _ _ _ pre hpre,
      imageInferenceListener_at_key sdk _ msg rest _ before after first more hmap hne hbefore,
      stoppedWith_decodePayload]

theorem request_resolves_on_own_reads_witness :
    (runSchedule (imageInferenceStep (sampleSDK [] .listener) "newImages")
        [(0, framePong), (1, frameOneImage), (0, frameTimedOutImage)]
        (List.replicate 2 none))[0]? =
      some (some (decodePayload (sampleSDK [] .listener) (some {})
        (.object [("timedOut", .bool true)])).2) ∧
    (decodePayload (sampleSDK [] .listener) (some {}) (.object [("timedOut", .bool true)])).2 =
      .response (some { TimedOut := true }) ∧
    (runSchedule (connectStep (sampleSDK [] .listener) "newConnectionSessionUUID")
        [(1, framePong), (0, frameError7), (1, frameSession)]
        (List.replicate 2 none))[1]? =
      some (some (.response { ConnectionSessionUUID := "s-2", TimedOut := false })) :=
  ⟨(request_resolves_on_own_reads (sampleSDK [] .listener)
      [(0, framePong), (1, frameOneImage), (0, frameTimedOutImage)] 2 0 (by decide)).2.2.2
      [framePong] [] frameTimedOutImage [] [] (.object [("timedOut", .bool true)]) []
      rfl (by decide) rfl rfl (by decide),
   rfl,
   (request_resolves_on_own_reads (sampleSDK [] .listener)
      [(1, framePong), (0, frameError7), (1, frameSession)] 2 1 (by decide)).2.2.1
      [framePong] [] frameSession rfl (by decide) (by decide) (by decide)⟩

end Runware
